import Mathlib

/-!
Verification of `youtube_channel_export.py`.

The development shallowly embeds the script in Lean:
* JSON payloads decoded by `json.loads` become the inductive `Json`;
  Python dictionaries are association lists in insertion order.
* Exceptions that the script can raise or propagate become the inductive
  `PyError`; `YouTubeApiError` is one constructor, and uncaught transport
  errors, `AttributeError`, `KeyError`, `IndexError` and `TypeError` are
  the others.
* Fallible code returns `Except PyError`.
* The network is an oracle argument: a function from the request data to
  the raw response (`ApiResponse`), so every network-dependent function is
  parameterised by the responses the platform would give.
-/

set_option autoImplicit false

/-- Shallow embedding of the JSON values produced by `json.loads`.
Numbers are modelled as integers, which covers every value the claims
touch; objects keep their key order and, as produced by `json.loads`,
never repeat a key. -/
inductive Json where
  | null
  | bool (b : Bool)
  | num (n : Int)
  | str (s : String)
  | arr (elems : List Json)
  | obj (kvs : List (String × Json))

/-- Python exception values that the script can raise or let propagate.
`youTubeApiError` is the single exception class the script defines; its
argument is the value passed to the constructor. The remaining
constructors model built-in exceptions that defensive code paths can
raise, and `transportError` models an error raised by `urlopen`/`read`,
which `http_get` does not catch. -/
inductive PyError where
  | youTubeApiError (msg : Json)
  | transportError (msg : String)
  | attributeError
  | keyError (k : String)
  | indexError
  | typeError

/-- Lookup in a Python dict modelled as an association list (first match;
`json.loads` never produces duplicate keys). -/
def lookupJ : List (String × Json) → String → Option Json
  | [], _ => none
  | (k, v) :: rest, key => if k = key then some v else lookupJ rest key

/-- Python `payload.get(key)` over a decoded top-level mapping. -/
def dget (payload : List (String × Json)) (key : String) : Option Json :=
  lookupJ payload key

/-- Python truthiness of a decoded JSON value. -/
def jtruthy : Json → Bool
  | .null => false
  | .bool b => b
  | .num n => n != 0
  | .str s => s != ""
  | .arr xs => !xs.isEmpty
  | .obj kvs => !kvs.isEmpty

/-- Python `x.get(key, default)` where `x` should be a dict: raises
`AttributeError` when `x` is not a dict. -/
def pyGetD (j : Json) (key : String) (default : Json) : Except PyError Json :=
  match j with
  | .obj kvs => .ok ((lookupJ kvs key).getD default)
  | _ => .error .attributeError

/-- Python `x.get(key)` (default `None` represented as `Option.none`):
raises `AttributeError` when `x` is not a dict. -/
def pyGetOpt (j : Json) (key : String) : Except PyError (Option Json) :=
  match j with
  | .obj kvs => .ok (lookupJ kvs key)
  | _ => .error .attributeError

/-- Python `x[0]` on a decoded JSON value: first element of a list, first
character of a string, `KeyError` on a dict (JSON object keys are
strings), `TypeError` otherwise. -/
def pyIndex0 : Json → Except PyError Json
  | .arr [] => .error .indexError
  | .arr (x :: _) => .ok x
  | .str s => if s = "" then .error .indexError else .ok (.str (s.take 1))
  | .obj _ => .error (.keyError "0")
  | _ => .error .typeError

/-- Python `x[key]` with a string key: value on a dict (else `KeyError`),
`TypeError` on every other value. -/
def pySubscript (j : Json) (key : String) : Except PyError Json :=
  match j with
  | .obj kvs =>
    match lookupJ kvs key with
    | some v => .ok v
    | none => .error (.keyError key)
  | _ => .error .typeError

/-- Python iteration `for x in j`: lists yield elements, strings yield
one-character strings, dicts yield their keys, everything else raises
`TypeError`. -/
def jIterate : Json → Except PyError (List Json)
  | .arr xs => .ok xs
  | .str s => .ok (s.data.map fun c => .str (String.mk [c]))
  | .obj kvs => .ok (kvs.map fun kv => .str kv.1)
  | _ => .error .typeError

/-- Characters for which Python `str.isspace()` holds (also the characters
matched by the regex class `\s` on `str` patterns). -/
def pyIsSpace (c : Char) : Bool :=
  c = ' ' || c = '\t' || c = '\n' || (9 ≤ c.toNat && c.toNat ≤ 13) ||
  (28 ≤ c.toNat && c.toNat ≤ 31) || c.toNat = 133 || c.toNat = 160 ||
  c.toNat = 5760 || (8192 ≤ c.toNat && c.toNat ≤ 8202) ||
  c.toNat = 8232 || c.toNat = 8233 || c.toNat = 8239 || c.toNat = 8287 ||
  c.toNat = 12288

/-- Python `str.strip()` on the character list of a string. -/
def pyStripList (l : List Char) : List Char :=
  ((l.dropWhile pyIsSpace).reverse.dropWhile pyIsSpace).reverse

/-- Python `str.strip()`. -/
def pyStrip (s : String) : String :=
  String.mk (pyStripList s.data)

/-- Single-quote character, used by the Python `repr` rendering below. -/
def squote : String := String.singleton (Char.ofNat 39)

/-- Python `repr` of a decoded JSON value; containers are rendered in
CPython style (string escaping inside containers is not modelled — the
claims only evaluate this on scalars). -/
def pyRepr : Json → String
  | .null => "None"
  | .bool true => "True"
  | .bool false => "False"
  | .num n => toString n
  | .str s => squote ++ s ++ squote
  | .arr xs => "[" ++ String.intercalate ", " (xs.attach.map fun x => pyRepr x.1) ++ "]"
  | .obj kvs =>
      String.singleton (Char.ofNat 123) ++
      String.intercalate ", "
        (kvs.attach.map fun kv => squote ++ kv.1.1 ++ squote ++ ": " ++ pyRepr kv.1.2) ++
      String.singleton (Char.ofNat 125)
decreasing_by
  · have h := List.sizeOf_lt_of_mem x.2
    simp only [Json.arr.sizeOf_spec]
    omega
  · obtain ⟨⟨k, v⟩, hmem⟩ := kv
    have h := List.sizeOf_lt_of_mem hmem
    simp only [Prod.mk.sizeOf_spec] at h
    simp only [Json.obj.sizeOf_spec]
    omega

/-- Python `str(x)` on a decoded JSON value. -/
def pyStr (j : Json) : String :=
  match j with
  | .str s => s
  | _ => pyRepr j

/-! ## The API client (`http_get`, source lines 21-32) -/

/-- Outcome of the underlying network interaction that `http_get`
performs for one request: the transport fails, or a body arrives that is
not valid JSON, or a body arrives that decodes to a JSON mapping (every
response of this API is an object at top level). -/
inductive ApiResponse where
  | transportFail (msg : String)
  | badJson (msg : String)
  | payload (d : List (String × Json))

/-- Source lines 21-32. `http_get` on the raw response it receives: a
transport error propagates uncaught; a body that is not valid JSON raises
`YouTubeApiError("Invalid JSON from API: ...")`; a decoded payload with an
`error` key raises `YouTubeApiError` carrying
`payload["error"].get("message", "API error")` (an `AttributeError` when
the `error` value is not a dict); otherwise the decoded payload is
returned unchanged. -/
def http_get (resp : ApiResponse) : Except PyError (List (String × Json)) :=
  match resp with
  | .transportFail msg => .error (.transportError msg)
  | .badJson msg => .error (.youTubeApiError (.str ("Invalid JSON from API: " ++ msg)))
  | .payload d =>
    match dget d "error" with
    | some (.obj e) => .error (.youTubeApiError ((lookupJ e "message").getD (.str "API error")))
    | some _ => .error .attributeError
    | none => .ok d

/-! ## Filename sanitisation (`sanitize_filename`, source lines 35-39) -/

/-- Characters of the regex class in source line 37: the
filesystem-unsafe characters replaced by an underscore. -/
def unsafeChar (c : Char) : Bool :=
  c = '\\' || c = '/' || c = ':' || c = '*' || c = '?' || c = '"' ||
  c = '<' || c = '>' || c = '|'

/-- Replacement of one character per source line 37. -/
def replaceUnsafe (c : Char) : Char :=
  if unsafeChar c then '_' else c

/-- Source line 38, the regex substitution of every maximal whitespace
run by one space. The flag records whether the previous character was
part of a whitespace run already replaced. -/
def collapseWsAux : Bool → List Char → List Char
  | _, [] => []
  | inRun, c :: cs =>
    if pyIsSpace c then
      if inRun then collapseWsAux true cs else ' ' :: collapseWsAux true cs
    else c :: collapseWsAux false cs

/-- Source lines 35-39: strip, default to `"channel"` when the stripped
name is empty (falsy), replace unsafe characters by `_`, collapse
whitespace runs to single spaces, truncate to 120 characters. -/
def sanitize_filename (name : String) : String :=
  let stripped := pyStripList name.data
  let base := if stripped = [] then "channel".data else stripped
  let replaced := base.map replaceUnsafe
  let collapsed := collapseWsAux false replaced
  String.mk (collapsed.take 120)

/-! ## Identifier classification (`extract_channel_identifier`,
source lines 53-82) -/

/-- Regex class `[A-Za-z0-9_-]` used by the `channel` and `user` URL
patterns. -/
def idChar (c : Char) : Bool :=
  c.isAlphanum || c = '_' || c = '-'

/-- Regex class `[A-Za-z0-9_.-]` used by the handle and custom URL
patterns. -/
def handleChar (c : Char) : Bool :=
  c.isAlphanum || c = '_' || c = '.' || c = '-'

/-- Maximal prefix drawn from a character class: the greedy match of a
`+`-repeated class. -/
def takeClass (cls : Char → Bool) : List Char → List Char
  | [] => []
  | c :: cs => if cls c then c :: takeClass cls cs else []

/-- Model of `re.search` for the patterns of lines 62-80, each of which
is a literal followed by a `+`-repeated character class: the leftmost
position where the literal occurs followed by at least one class
character wins, and the captured group is the maximal class run there. -/
def searchLit (lit : List Char) (cls : Char → Bool) : List Char → Option (List Char)
  | [] => none
  | c :: cs =>
    if lit.isPrefixOf (c :: cs) then
      let tok := takeClass cls ((c :: cs).drop lit.length)
      if tok.isEmpty then searchLit lit cls cs else some tok
    else searchLit lit cls cs

/-- Rules of source lines 57-82, applied in priority order to the
character list of the stripped input. -/
def classifyStripped (v : List Char) : String × String :=
  if "UC".data.isPrefixOf v ∧ 20 ≤ v.length then ("id", String.mk v)
  else
    match searchLit "youtube.com/channel/".data idChar v with
    | some tok => ("id", String.mk tok)
    | none =>
      match searchLit "youtube.com/user/".data idChar v with
      | some tok => ("username", String.mk tok)
      | none =>
        match searchLit "youtube.com/@".data handleChar v with
        | some tok => ("query", String.mk tok)
        | none =>
          if "@".data.isPrefixOf v then ("query", String.mk (v.drop 1))
          else
            match searchLit "youtube.com/c/".data handleChar v with
            | some tok => ("query", String.mk tok)
            | none => ("query", String.mk v)

/-- Source lines 53-82. Classifies one raw input into `(kind, value)`
with `kind` one of `id`, `username`, `query`: the input is stripped
(line 55) and the rules are applied in priority order. -/
def extract_channel_identifier (value : String) : String × String :=
  classifyStripped (pyStripList value.data)

/-! ## Channel resolution (`resolve_channel_id`, source lines 85-118) -/

/-- Source lines 85-118. The network is the oracle `api`, mapping an
endpoint path and the URL parameters (in the order of the Python dict
literals) to the raw response. Kind `id` returns the identifier with no
use of `api`; kind `username` queries the `channels` endpoint and returns
`none` when the `items` list is missing or falsy, else `items[0]["id"]`;
every other kind queries the `search` endpoint with `type=channel` and
`maxResults=1` and returns `none` when `items` is missing or falsy, else
`items[0]["snippet"]["channelId"]`. -/
def resolve_channel_id (api : String → List (String × String) → ApiResponse)
    (api_key : String) (value : String) : Except PyError (Option Json) :=
  match extract_channel_identifier value with
  | (kind, ident) =>
    if kind = "id" then .ok (some (.str ident))
    else if kind = "username" then
      match http_get (api "channels" [("part", "id"), ("forUsername", ident), ("key", api_key)]) with
      | .error e => .error e
      | .ok payload =>
        let items := (dget payload "items").getD (.arr [])
        if jtruthy items then do
          let first ← pyIndex0 items
          let idv ← pySubscript first "id"
          pure (some idv)
        else .ok none
    else
      match http_get (api "search"
          [("part", "snippet"), ("q", ident), ("type", "channel"),
           ("maxResults", "1"), ("key", api_key)]) with
      | .error e => .error e
      | .ok payload =>
        let items := (dget payload "items").getD (.arr [])
        if jtruthy items then do
          let first ← pyIndex0 items
          let sn ← pySubscript first "snippet"
          let cid ← pySubscript sn "channelId"
          pure (some cid)
        else .ok none

/-! ## Channel details (`get_channel_details`, source lines 121-133) -/

/-- Source lines 121-133. Requests the channel with the given id; when
the `items` list is missing or falsy it raises
`YouTubeApiError("Channel not found: <id>")`, else returns `items[0]`. -/
def get_channel_details (api : String → List (String × String) → ApiResponse)
    (api_key channel_id : String) : Except PyError Json := do
  let payload ← http_get (api "channels"
    [("part", "snippet,contentDetails,statistics"), ("id", channel_id), ("key", api_key)])
  let items := (dget payload "items").getD (.arr [])
  if jtruthy items then pyIndex0 items
  else .error (.youTubeApiError (.str ("Channel not found: " ++ channel_id)))

/-! ## Upload enumeration (`iter_uploads_playlist_video_ids`,
source lines 136-157) -/

/-- Loop body of one page, source lines 150-153: iterate
`payload.get("items", [])`; for each item read
`item.get("contentDetails", {}).get("videoId")` and yield it when truthy.
The accumulator collects the yields in order. -/
def collectIds : List Json → List Json → Except PyError (List Json)
  | [], acc => .ok acc
  | item :: rest, acc => do
    let cd ← pyGetD item "contentDetails" (.obj [])
    let vid ← pyGetOpt cd "videoId"
    match vid with
    | some v => if jtruthy v then collectIds rest (acc ++ [v]) else collectIds rest acc
    | none => collectIds rest acc

/-- The video ids one page yields, source lines 150-153. -/
def pageYield (p : List (String × Json)) : Except PyError (List Json) := do
  let items ← jIterate ((dget p "items").getD (.arr []))
  collectIds items []

/-- The next-page cursor of a page: `payload.get("nextPageToken", "")`,
source line 154. -/
def pageTok (p : List (String × Json)) : Json :=
  (dget p "nextPageToken").getD (.str "")

/-- Source lines 136-157. The argument lists the successive decoded
payloads the API returns, one per request the loop issues (the first for
the request without a cursor, each next one for the cursor of the page
before it). Each iteration yields the page's present video ids and then
stops when the page's cursor is falsy; pages after the first falsy cursor
are never requested. An empty list of remaining pages ends the recursion
but is unreachable when the supplied pages end with a falsy cursor, which
is the only way the source loop terminates. -/
def iter_uploads_playlist_video_ids :
    List (List (String × Json)) → Except PyError (List Json)
  | [] => .ok []
  | p :: rest => do
    let ids ← pageYield p
    if jtruthy (pageTok p) then do
      let more ← iter_uploads_playlist_video_ids rest
      pure (ids ++ more)
    else pure ids

/-- The present video id of one well-formed playlist item, used to state
what the enumerator must yield: the `videoId` of the item's
`contentDetails` when present and truthy. -/
def extractId : Json → Option Json
  | .obj kvs =>
    match lookupJ kvs "contentDetails" with
    | some (.obj cd) =>
      match lookupJ cd "videoId" with
      | some v => if jtruthy v then some v else none
      | none => none
    | _ => none
  | _ => none

/-- The ids a page is expected to yield: its present, truthy video ids in
source order. -/
def pageIds (p : List (String × Json)) : List Json :=
  match dget p "items" with
  | some (.arr xs) => xs.filterMap extractId
  | _ => []

/-- A playlist item over which the loop body cannot raise: a dict whose
`contentDetails`, when present, is a dict. -/
def wfItem : Json → Bool
  | .obj kvs =>
    match lookupJ kvs "contentDetails" with
    | none => true
    | some (.obj _) => true
    | some _ => false
  | _ => false

/-- A page payload whose `items`, when present, is a list of well-formed
items. -/
def wfPage (p : List (String × Json)) : Bool :=
  match dget p "items" with
  | none => true
  | some (.arr xs) => xs.all wfItem
  | some _ => false

/-- A well-formed paginated source: at least one page, every page
well-formed, every page except the last carrying a truthy cursor, and the
last page carrying a falsy cursor (the loop's only exit). -/
def wfPages : List (List (String × Json)) → Bool
  | [] => false
  | [p] => wfPage p && !jtruthy (pageTok p)
  | p :: q :: rest => wfPage p && jtruthy (pageTok p) && wfPages (q :: rest)

/-! ## Batched video details (`chunks` and `fetch_videos_details`,
source lines 159-178) -/

/-- Source lines 159-161: `items[i : i + size]` for
`i in range(0, len(items), size)`. `range(0, n, size)` has
`(n + size - 1) / size` elements for positive `size` (the source only
calls this with size 50; Python raises on a zero step). -/
def chunks {α : Type} (items : List α) (size : Nat) : List (List α) :=
  (List.range' 0 ((items.length + size - 1) / size) size).map
    fun i => (items.drop i).take size

/-- The items one batch contributes, source lines 167-176: the response
is decoded by `http_get` and `payload.get("items", [])` is iterated into
the accumulating list. -/
def batchItems (resp : ApiResponse) : Except PyError (List Json) := do
  let payload ← http_get resp
  jIterate ((dget payload "items").getD (.arr []))

/-- The loop of source lines 166-177 over the remaining batches, carrying
the accumulated details; an error on a batch aborts the remaining
batches. -/
def fetchGo (api : List String → ApiResponse) :
    List (List String) → List Json → Except PyError (List Json)
  | [], details => .ok details
  | batch :: rest, details =>
    match batchItems (api batch) with
    | .error e => .error e
    | .ok xs => fetchGo api rest (details ++ xs)

/-- Source lines 164-178. The oracle `api` maps the id list of one batch
to the raw response of the `videos` call for that batch. -/
def fetch_videos_details (api : List String → ApiResponse)
    (video_ids : List String) : Except PyError (List Json) :=
  fetchGo api (chunks video_ids 50) []

/-- Value of a successful `batchItems`, empty on error (only used under a
success hypothesis). -/
def okList (r : Except PyError (List Json)) : List Json :=
  match r with
  | .ok l => l
  | .error _ => []

/-! ## Tag formatting and the video table writer
(`format_tags` and `write_videos_info`, source lines 181-245) -/

/-- Python `"|".join(x)`: joins an iterable of strings; a list with a
non-string element raises `TypeError`, a string joins its characters, a
dict joins its keys. -/
def pyStrJoin (sep : String) : Json → Except PyError String
  | .arr xs =>
    match xs.mapM (fun x => match x with | .str s => some s | _ => none) with
    | some ss => .ok (String.intercalate sep ss)
    | none => .error .typeError
  | .str s => .ok (String.intercalate sep (s.data.map fun c => String.mk [c]))
  | .obj kvs => .ok (String.intercalate sep (kvs.map fun kv => kv.1))
  | _ => .error .typeError

/-- Source lines 181-184: an absent (`None`) or falsy tags value renders
as the empty string, otherwise the tags are joined with `|`. -/
def format_tags (tags : Option Json) : Except PyError String :=
  match tags with
  | none => .ok ""
  | some t => if jtruthy t then pyStrJoin "|" t else .ok ""

/-- Header of the per-channel video table, source lines 193-212. -/
def videoHeader : List String :=
  ["source_input", "channel_id", "channel_title", "video_id", "video_title",
   "video_description", "video_published_at", "video_tags", "video_category_id",
   "video_duration", "video_definition", "video_caption", "video_licensed_content",
   "video_projection", "video_view_count", "video_like_count", "video_comment_count",
   "video_favorite_count"]

/-- One data row of the video table, source lines 220-245, in source
evaluation order: the sub-records are read with dict defaults, the tags
cell goes through `format_tags`, and `licensedContent` through `str`. -/
def videoRow (source_input : String) (channel_id channel_title : Json)
    (video : Json) : Except PyError (List Json) := do
  let snippet ← pyGetD video "snippet" (.obj [])
  let stats ← pyGetD video "statistics" (.obj [])
  let content ← pyGetD video "contentDetails" (.obj [])
  let vid ← pyGetD video "id" (.str "")
  let title ← pyGetD snippet "title" (.str "")
  let desc ← pyGetD snippet "description" (.str "")
  let pub ← pyGetD snippet "publishedAt" (.str "")
  let tagsJ ← pyGetOpt snippet "tags"
  let tagsCell ← format_tags tagsJ
  let cat ← pyGetD snippet "categoryId" (.str "")
  let dur ← pyGetD content "duration" (.str "")
  let defn ← pyGetD content "definition" (.str "")
  let capt ← pyGetD content "caption" (.str "")
  let lic ← pyGetD content "licensedContent" (.str "")
  let proj ← pyGetD content "projection" (.str "")
  let vc ← pyGetD stats "viewCount" (.str "")
  let lc ← pyGetD stats "likeCount" (.str "")
  let cc ← pyGetD stats "commentCount" (.str "")
  let fc ← pyGetD stats "favoriteCount" (.str "")
  pure [.str source_input, channel_id, channel_title, vid, title, desc, pub,
        .str tagsCell, cat, dur, defn, capt, .str (pyStr lic), proj, vc, lc, cc, fc]

/-- Source lines 187-245: the full table the writer emits for one
channel, header row first (header cells as strings), then one row per
video. File output is modelled as the written table. -/
def write_videos_info (channel : Json) (videos : List Json)
    (source_input : String) : Except PyError (List (List Json)) := do
  let channel_id ← pyGetD channel "id" (.str "")
  let csnip ← pyGetD channel "snippet" (.obj [])
  let channel_title ← pyGetD csnip "title" (.str "")
  let rows ← videos.mapM (videoRow source_input channel_id channel_title)
  pure ((videoHeader.map Json.str) :: rows)

/-! ## Spec-side row description used to state the writer claims -/

/-- Lookup on a JSON value that is expected to be a dict; `none` on
anything else. -/
def jlookup (j : Json) (key : String) : Option Json :=
  match j with
  | .obj kvs => lookupJ kvs key
  | _ => none

/-- The sub-record `j.get(key, {})` of a well-formed record, as a pure
value. -/
def jsub (j : Json) (key : String) : Json :=
  match j with
  | .obj kvs => (lookupJ kvs key).getD (.obj [])
  | _ => .obj []

/-- The cell `j.get(key, "")` of a well-formed record, as a pure value. -/
def jcell (j : Json) (key : String) : Json :=
  match j with
  | .obj kvs => (lookupJ kvs key).getD (.str "")
  | _ => .str ""

/-- The expected tags cell: joined with `|` for a present string list
(an empty list joins to the empty string, matching the falsy branch of
`format_tags`), empty otherwise. -/
def tags_cell (tags : Option Json) : String :=
  match tags with
  | some (.arr xs) =>
    String.intercalate "|" (xs.filterMap fun x => match x with | .str s => some s | _ => none)
  | _ => ""

/-- The expected data row of the video table for one video, phrased with
the pure accessors above. -/
def videoRowSpec (source_input : String) (channel_id channel_title : Json)
    (video : Json) : List Json :=
  let s := jsub video "snippet"
  let st := jsub video "statistics"
  let c := jsub video "contentDetails"
  [.str source_input, channel_id, channel_title, jcell video "id", jcell s "title",
   jcell s "description", jcell s "publishedAt", .str (tags_cell (jlookup s "tags")),
   jcell s "categoryId", jcell c "duration", jcell c "definition", jcell c "caption",
   .str (pyStr ((jlookup c "licensedContent").getD (.str ""))), jcell c "projection",
   jcell st "viewCount", jcell st "likeCount", jcell st "commentCount",
   jcell st "favoriteCount"]

/-- A key of a record that, when present, holds a dict. -/
def wfSub (kvs : List (String × Json)) (key : String) : Bool :=
  match lookupJ kvs key with
  | none => true
  | some (.obj _) => true
  | some _ => false

/-- A tags value over which `format_tags` cannot raise in a meaningful
video record: absent, or a list of strings. -/
def wfTags : Option Json → Bool
  | none => true
  | some (.arr xs) => xs.all fun x => match x with | .str _ => true | _ => false
  | some _ => false

/-- A video record as the claims quantify over it: a dict whose
`snippet`, `statistics` and `contentDetails` are dicts when present and
whose `snippet.tags`, when present, is a list of strings; every other
field is free, and any field may be absent. -/
def wfVideo : Json → Bool
  | .obj kvs =>
    wfSub kvs "snippet" && wfSub kvs "statistics" && wfSub kvs "contentDetails" &&
    (match lookupJ kvs "snippet" with
     | some (.obj s) => wfTags (lookupJ s "tags")
     | _ => true)
  | _ => false

/-- A channel record over which the writer header fields cannot raise: a
dict whose `snippet`, when present, is a dict. -/
def wfChan : Json → Bool
  | .obj kvs => wfSub kvs "snippet"
  | _ => false

/-! ## The channel summary row (source lines 303-319) -/

/-- Source lines 303-319: the dict appended to `channel_rows` for one
resolved channel, in the literal's key order. -/
def mkChannelRow (value : String) (channel : Json) :
    Except PyError (List (String × Json)) := do
  let csnip ← pyGetD channel "snippet" (.obj [])
  let cstats ← pyGetD channel "statistics" (.obj [])
  let cid ← pyGetD channel "id" (.str "")
  let title ← pyGetD csnip "title" (.str "")
  let desc ← pyGetD csnip "description" (.str "")
  let pub ← pyGetD csnip "publishedAt" (.str "")
  let country ← pyGetD csnip "country" (.str "")
  let views ← pyGetD cstats "viewCount" (.str "")
  let subs ← pyGetD cstats "subscriberCount" (.str "")
  let vids ← pyGetD cstats "videoCount" (.str "")
  pure [("source_input", .str value), ("channel_id", cid), ("channel_title", title),
        ("channel_description", desc), ("channel_published_at", pub),
        ("channel_country", country), ("channel_view_count", views),
        ("channel_subscriber_count", subs), ("channel_video_count", vids)]

/-! ## The pipeline driver (`main`, source lines 293-349) -/

/-- Observable actions of one run of the driver loop: a per-channel video
table written to a path, the final channel summary table, an error line,
a skip line, a success line. -/
inductive Event where
  | videoCsvWrite (path : String) (table : List (List Json))
  | channelCsvWrite (rows : List (List (String × Json)))
  | errorLog (value : String) (e : PyError)
  | skipLog (value : String)
  | okLog (value : String) (path : String)

/-- The outcomes of the four network interactions the loop body performs
for one input line. Each field is the result the corresponding call
(`resolve_channel_id`, `get_channel_details`,
`list(iter_uploads_playlist_video_ids(...))`, `fetch_videos_details`)
produces for this line; the calls themselves are modelled above, and the
driver claims quantify over their possible outcomes. -/
structure LineApi where
  resolve : Except PyError (Option Json)
  details : Except PyError Json
  enumIds : Except PyError (List Json)
  fetchVideos : Except PyError (List Json)

/-- Python `os.path.join` for a relative second component: the separator
is inserted unless the directory is empty or already ends in one. -/
def pathJoin (a b : String) : String :=
  if a = "" then b
  else if a.data.getLast? = some '/' then a ++ b
  else a ++ "/" ++ b

/-- Source lines 325-326: the channel title with default `"channel"`,
sanitised. `sanitize_filename` on a non-string raises `AttributeError`
(its first step is `name.strip()`). -/
def channelFilename (channel : Json) : Except PyError String := do
  let csnip ← pyGetD channel "snippet" (.obj [])
  let titleJ ← pyGetD csnip "title" (.str "channel")
  match titleJ with
  | .str s => pure (sanitize_filename s)
  | _ => .error .attributeError

/-- Source lines 325-329: the path of the per-channel video table,
computed from the output directory and the channel record only. -/
def videos_info_path (outdir : String) (channel : Json) : Except PyError String := do
  let filename ← channelFilename channel
  pure (pathJoin outdir (filename ++ "_videosinfo.csv"))

/-- Source lines 320-337, the fallible part of the loop body after the
channel row has been appended: extract the uploads playlist id, compute
the output path, enumerate and fetch the videos when the playlist id and
the id list are truthy, build the video table. -/
def lineVideoWork (outdir value : String) (o : LineApi) (channel : Json) :
    Except PyError (String × List (List Json)) := do
  let cd ← pyGetD channel "contentDetails" (.obj [])
  let rp ← pyGetD cd "relatedPlaylists" (.obj [])
  let uploads ← pyGetOpt rp "uploads"
  let path ← videos_info_path outdir channel
  let videos ← (match uploads with
    | some u =>
      if jtruthy u then do
        let ids ← o.enumIds
        if ids.isEmpty then pure ([] : List Json) else o.fetchVideos
      else pure []
    | none => pure [])
  let table ← write_videos_info channel videos value
  pure (path, table)

/-- Source lines 320-340: the events of the per-line work after the row
append — a video table write and a success line, or an error line when a
raise was caught by the handlers of lines 342-345. -/
def afterRowEvents (outdir value : String) (o : LineApi) (channel : Json) :
    List Event :=
  match lineVideoWork outdir value o channel with
  | .ok (path, table) => [.videoCsvWrite path table, .okLog value path]
  | .error e => [.errorLog value e]

/-- Source lines 295-345, the loop body for one input line: a raise at
any stage is caught and logged; a falsy resolved id is reported as a
skip; otherwise the channel row is appended (first component) before the
video work of `afterRowEvents` runs, so a later failure keeps the row. -/
def processLine (outdir value : String) (o : LineApi) :
    Option (List (String × Json)) × List Event :=
  match o.resolve with
  | .error e => (none, [.errorLog value e])
  | .ok none => (none, [.skipLog value])
  | .ok (some cid) =>
    if jtruthy cid then
      match o.details with
      | .error e => (none, [.errorLog value e])
      | .ok channel =>
        match mkChannelRow value channel with
        | .error e => (none, [.errorLog value e])
        | .ok row => (some row, afterRowEvents outdir value o channel)
    else (none, [.skipLog value])

/-- The driver loop, source lines 295-345: each input line is paired with
the outcomes of its network interactions; the accumulated channel rows
thread through, events accumulate in order. -/
def driverLoop (outdir : String) :
    List (String × LineApi) → List (List (String × Json)) →
    List (List (String × Json)) × List Event
  | [], rows => (rows, [])
  | item :: rest, rows =>
    let pr := processLine outdir item.1 item.2
    let res := driverLoop outdir rest (rows ++ pr.1.toList)
    (res.1, pr.2 ++ res.2)

/-- Source lines 293-349: the full observable trace of one run — all
per-line events in order, then the single write of the accumulated
channel table (source lines 347-348). -/
def main_trace (outdir : String) (items : List (String × LineApi)) : List Event :=
  let res := driverLoop outdir items []
  res.2 ++ [.channelCsvWrite res.1]

/-- Whether an event is the channel summary write. -/
def isChannelWrite : Event → Bool
  | .channelCsvWrite _ => true
  | _ => false

/-! ## File-system effect of the trace (`open(path, "w")` semantics) -/

/-- Writing a table to a path: `open(out_path, "w")` truncates, so an
existing file at the path is replaced. -/
def fsWrite : List (String × List (List Json)) → String → List (List Json) →
    List (String × List (List Json))
  | [], p, t => [(p, t)]
  | (q, u) :: rest, p, t =>
    if q = p then (q, t) :: rest else (q, u) :: fsWrite rest p t

/-- Content of the file at a path, if any. -/
def fsLookup : List (String × List (List Json)) → String → Option (List (List Json))
  | [], _ => none
  | (q, u) :: rest, p => if q = p then some u else fsLookup rest p

/-- Replaying the video table writes of a trace against a file system. -/
def applyEvents : List Event → List (String × List (List Json)) →
    List (String × List (List Json))
  | [], fs => fs
  | .videoCsvWrite p t :: rest, fs => applyEvents rest (fsWrite fs p t)
  | _ :: rest, fs => applyEvents rest fs

/-- The last video table written to a path in a trace. -/
def lastVideoWrite (events : List Event) (p : String) : Option (List (List Json)) :=
  (events.filterMap fun e =>
    match e with
    | .videoCsvWrite q t => if q = p then some t else none
    | _ => none).getLast?

/-! ## Helper lemmas -/

/-- The whitespace-collapsing pass never empties a nonempty string. -/
theorem collapseWsAux_ne_nil (c : Char) (cs : List Char) :
    collapseWsAux false (c :: cs) ≠ [] := by
  by_cases h : pyIsSpace c <;> simp [collapseWsAux, h]

/-- Every character of the collapsed output is a plain space or a
non-whitespace character of the input. -/
theorem collapseWsAux_mem (b : Bool) (l : List Char) (c : Char)
    (hc : c ∈ collapseWsAux b l) : c = ' ' ∨ (c ∈ l ∧ pyIsSpace c = false) := by
  induction l generalizing b with
  | nil => simp [collapseWsAux] at hc
  | cons d ds ih =>
    by_cases hd : pyIsSpace d
    · cases b <;> simp only [collapseWsAux, hd, if_true] at hc
      · rcases List.mem_cons.mp hc with h | h
        · exact Or.inl h
        · rcases ih true h with h2 | h2
          · exact Or.inl h2
          · exact Or.inr ⟨List.mem_cons_of_mem d h2.1, h2.2⟩
      · rcases ih true hc with h2 | h2
        · exact Or.inl h2
        · exact Or.inr ⟨List.mem_cons_of_mem d h2.1, h2.2⟩
    · simp only [collapseWsAux, hd, if_false] at hc
      rcases List.mem_cons.mp hc with h | h
      · subst h
        exact Or.inr ⟨List.mem_cons_self c ds, by simpa using hd⟩
      · rcases ih false h with h2 | h2
        · exact Or.inl h2
        · exact Or.inr ⟨List.mem_cons_of_mem d h2.1, h2.2⟩

/-- No two adjacent characters of the collapsed output are both
whitespace, and output produced mid-run starts with a non-whitespace
character. -/
theorem collapseWsAux_chain (l : List Char) :
    ∀ b : Bool, List.Chain' (fun a c => ¬(pyIsSpace a = true ∧ pyIsSpace c = true))
      (collapseWsAux b l) ∧
    (∀ c, (collapseWsAux true l).head? = some c → pyIsSpace c = false) := by
  induction l with
  | nil => intro b; simp [collapseWsAux]
  | cons d ds ih =>
    intro b
    by_cases hd : pyIsSpace d
    · refine ⟨?_, ?_⟩
      · cases b
        · simp only [collapseWsAux, hd, if_true]
          refine List.chain'_cons'.mpr ⟨?_, (ih true).1⟩
          intro y hy
          have := (ih true).2 y hy
          simp [this]
        · simp only [collapseWsAux, hd, if_true]
          exact (ih true).1
      · intro c hc
        simp only [collapseWsAux, hd, if_true] at hc
        exact (ih true).2 c hc
    · refine ⟨?_, ?_⟩
      · cases b <;> simp only [collapseWsAux, hd, if_false] <;>
          refine List.chain'_cons'.mpr ⟨?_, (ih false).1⟩ <;>
          · intro y hy
            simp [hd]
      · intro c hc
        simp only [collapseWsAux, hd, if_false, List.head?_cons] at hc
        cases hc
        simpa using hd

/-- Replacement output is never a filesystem-unsafe character. -/
theorem unsafeChar_replaceUnsafe (c : Char) : unsafeChar (replaceUnsafe c) = false := by
  by_cases h : unsafeChar c
  · simp only [replaceUnsafe, h, if_true]
    decide
  · simp only [replaceUnsafe, h, if_false]
    simpa using h

/-- C9: for every channel-title string, `sanitize_filename` produces a
result of at most 120 characters that is never empty and contains no
filesystem-unsafe character; whitespace survives only as single plain
spaces with no two adjacent; a title that strips to the empty string
yields `"channel"`. -/
theorem C9_sanitize_filename (name : String) :
    (sanitize_filename name).length ≤ 120 ∧
    sanitize_filename name ≠ "" ∧
    (∀ c ∈ (sanitize_filename name).data, unsafeChar c = false) ∧
    (∀ c ∈ (sanitize_filename name).data, pyIsSpace c = true → c = ' ') ∧
    List.Chain' (fun a c => ¬(pyIsSpace a = true ∧ pyIsSpace c = true))
      (sanitize_filename name).data ∧
    (pyStrip name = "" → sanitize_filename name = "channel") := by
  have hdata : (sanitize_filename name).data =
      (collapseWsAux false
        ((if pyStripList name.data = [] then "channel".data
          else pyStripList name.data).map replaceUnsafe)).take 120 := rfl
  have hbase : (if pyStripList name.data = [] then "channel".data
      else pyStripList name.data) ≠ [] := by
    by_cases h : pyStripList name.data = [] <;> simp [h]
  obtain ⟨c0, cs0, hcons⟩ := List.exists_cons_of_ne_nil
    (fun h => hbase (List.map_eq_nil_iff.mp h) :
      (if pyStripList name.data = [] then "channel".data
        else pyStripList name.data).map replaceUnsafe ≠ [])
  refine ⟨?_, ?_, ?_, ?_, ?_, ?_⟩
  · show (sanitize_filename name).data.length ≤ 120
    rw [hdata, List.length_take]
    exact Nat.min_le_left _ _
  · intro h
    have h2 : (sanitize_filename name).data = [] := by rw [h]
    rw [hdata, hcons, List.take_eq_nil_iff] at h2
    rcases h2 with h2 | h2
    · exact absurd h2 (by decide)
    · exact collapseWsAux_ne_nil c0 cs0 h2
  · intro c hc
    rw [hdata] at hc
    have hc2 := List.take_subset _ _ hc
    rcases collapseWsAux_mem false _ c hc2 with h | h
    · subst h; decide
    · obtain ⟨x, _, hx⟩ := List.mem_map.mp h.1
      rw [← hx]
      exact unsafeChar_replaceUnsafe x
  · intro c hc hsp
    rw [hdata] at hc
    have hc2 := List.take_subset _ _ hc
    rcases collapseWsAux_mem false _ c hc2 with h | h
    · exact h
    · rw [h.2] at hsp; cases hsp
  · rw [hdata]
    exact ((collapseWsAux_chain _ false).1).take 120
  · intro h
    have h2 : pyStripList name.data = [] := by
      have := congrArg String.data h
      exact this
    unfold sanitize_filename
    rw [h2]
    rfl

/-- Stripping is the identity when neither end of the list is
whitespace. -/
theorem pyStripList_id (l : List Char)
    (h1 : ∀ c, l.head? = some c → pyIsSpace c = false)
    (h2 : ∀ c, l.getLast? = some c → pyIsSpace c = false) :
    pyStripList l = l := by
  unfold pyStripList
  have hdrop : l.dropWhile pyIsSpace = l := by
    cases l with
    | nil => rfl
    | cons a t =>
      rw [List.dropWhile_cons, h1 a rfl]
      simp
  rw [hdrop]
  cases hrev : l.reverse with
  | nil => simp [List.reverse_eq_nil_iff.mp hrev]
  | cons a t =>
    have ha : l.getLast? = some a := by
      rw [← List.head?_reverse, hrev]
      rfl
    rw [List.dropWhile_cons, h2 a ha]
    simp only [Bool.false_eq_true, if_false]
    rw [← hrev, List.reverse_reverse]

/-- The classification kind is always one of the three variants. -/
theorem classifyStripped_kind (v : List Char) :
    (classifyStripped v).1 = "id" ∨ (classifyStripped v).1 = "username" ∨
    (classifyStripped v).1 = "query" := by
  unfold classifyStripped
  split
  · simp
  · split
    · simp
    · split
      · simp
      · split
        · simp
        · split
          · simp
          · split <;> simp

/-- C3 counterexample: the input `"UC"` followed by 20 spaces has the
shape `"UC"` plus 20 arbitrary characters, but the classifier strips it
first and returns `(query, "UC")`, not `(id, <same string>)`. -/
theorem C3_counterexample :
    ("UC                    ").length = 22 ∧
    extract_channel_identifier "UC                    " = ("query", "UC") ∧
    extract_channel_identifier "UC                    " ≠
      ("id", "UC                    ") := by
  refine ⟨by decide, by decide, by decide⟩

/-- C3 (amended): the classifier is pure and total and always returns one
of the three kinds; an input of the form `"UC"` plus 20 characters is
returned unchanged as `(id, <same string>)` provided its last character
is not whitespace (stripping, source line 55, rewrites the value
otherwise); `"@someHandle"` classifies as `(query, "someHandle")`. -/
theorem C3_classifier :
    (∀ value : String, (extract_channel_identifier value).1 = "id" ∨
      (extract_channel_identifier value).1 = "username" ∨
      (extract_channel_identifier value).1 = "query") ∧
    (∀ (s : String) (c : Char), s.length = 20 → s.data.getLast? = some c →
      pyIsSpace c = false →
      extract_channel_identifier ("UC" ++ s) = ("id", "UC" ++ s)) ∧
    extract_channel_identifier "@someHandle" = ("query", "someHandle") := by
  refine ⟨?_, ?_, by decide⟩
  · intro value
    exact classifyStripped_kind _
  · intro s c h1 h2 h3
    have hUC : "UC".data = ['U', 'C'] := by decide
    have hd : ("UC" ++ s).data = 'U' :: 'C' :: s.data := by
      rw [String.data_append, hUC]
      rfl
    have hsnil : s.data ≠ [] := by
      intro h
      rw [h] at h2
      cases h2
    obtain ⟨b, bs, hb⟩ := List.exists_cons_of_ne_nil hsnil
    have hstrip : pyStripList ("UC" ++ s).data = 'U' :: 'C' :: s.data := by
      rw [hd]
      apply pyStripList_id
      · intro x hx
        simp only [List.head?_cons, Option.some.injEq] at hx
        rw [← hx]
        decide
      · intro x hx
        rw [hb, List.getLast?_cons_cons, List.getLast?_cons_cons] at hx
        rw [hb] at h2
        rw [h2] at hx
        injection hx with hxc
        rw [← hxc]
        exact h3
    have hlen : 20 ≤ ('U' :: 'C' :: s.data).length := by
      have hsl : s.data.length = 20 := h1
      simp [List.length_cons, hsl]
    have hpre : "UC".data.isPrefixOf ('U' :: 'C' :: s.data) = true := by
      rw [hUC, List.isPrefixOf_iff_prefix]
      exact ⟨s.data, rfl⟩
    unfold extract_channel_identifier
    rw [hstrip]
    unfold classifyStripped
    rw [if_pos ⟨hpre, hlen⟩]
    have hmk : String.mk ('U' :: 'C' :: s.data) = "UC" ++ s := by
      rw [← hd]
    rw [hmk]

/-- C3 witness: a concrete `"UC"` plus 20 non-whitespace characters is
returned unchanged with kind `id`. -/
theorem C3_classifier_witness :
    extract_channel_identifier ("UC" ++ "abcdefghijklmnopqrst") =
      ("id", "UC" ++ "abcdefghijklmnopqrst") :=
  C3_classifier.2.1 "abcdefghijklmnopqrst" 't' (by decide) (by decide) (by decide)

/-- C9 witness: the empty title yields the default file stem. -/
theorem C9_sanitize_filename_witness :
    sanitize_filename "" = "channel" ∧ sanitize_filename "" ≠ "" :=
  ⟨(C9_sanitize_filename "").2.2.2.2.2 rfl, (C9_sanitize_filename "").2.1⟩

/-- C7 counterexample: an invalid JSON body does not fail with a
transport-level failure type distinct from the platform-error type; it
raises the same `YouTubeApiError` — here with a value identical to the
one an API-reported error produces, so the two outcomes are
indistinguishable. -/
theorem C7_counterexample :
    http_get (.badJson "boom") =
      .error (.youTubeApiError (.str ("Invalid JSON from API: " ++ "boom"))) ∧
    http_get (.payload
        [("error", Json.obj [("message", Json.str ("Invalid JSON from API: " ++ "boom"))])]) =
      .error (.youTubeApiError (.str ("Invalid JSON from API: " ++ "boom"))) :=
  ⟨rfl, rfl⟩

/-- C7 (amended): a transport error propagates out of `http_get` as the
raw transport exception; an invalid JSON body raises the script's
`YouTubeApiError` carrying `Invalid JSON from API: ...` (the same
exception type as platform-reported errors, distinguished only by
message); a decoded payload with an `error` object raises
`YouTubeApiError` carrying the upstream message (defaulting to
`API error`); a payload without an `error` key is returned unchanged. -/
theorem C7_http_get :
    (∀ m, http_get (.transportFail m) = .error (.transportError m)) ∧
    (∀ m, http_get (.badJson m) =
      .error (.youTubeApiError (.str ("Invalid JSON from API: " ++ m)))) ∧
    (∀ d e, dget d "error" = some (.obj e) →
      http_get (.payload d) =
        .error (.youTubeApiError ((lookupJ e "message").getD (.str "API error")))) ∧
    (∀ d, dget d "error" = none → http_get (.payload d) = .ok d) := by
  refine ⟨fun m => rfl, fun m => rfl, ?_, ?_⟩
  · intro d e h
    simp only [http_get]
    rw [h]
  · intro d h
    simp only [http_get]
    rw [h]

/-- C7 witness: a concrete error payload raises with the upstream
message, and a concrete clean payload is returned unchanged. -/
theorem C7_http_get_witness :
    http_get (.payload [("error", Json.obj [("message", Json.str "quota")])]) =
      .error (.youTubeApiError
        ((lookupJ [("message", Json.str "quota")] "message").getD (.str "API error"))) ∧
    http_get (.payload [("items", Json.arr [])]) = .ok [("items", Json.arr [])] :=
  ⟨C7_http_get.2.2.1 _ _ rfl, C7_http_get.2.2.2 _ rfl⟩

/-- C6 counterexample: an empty result list makes `get_channel_details`
raise the same exception type as an API-reported failure — a
`YouTubeApiError` whose value can coincide exactly with the one
`http_get` raises for an upstream error, so no distinct `ChannelNotFound`
type exists. -/
theorem C6_counterexample :
    get_channel_details (fun _ _ => .payload [("items", Json.arr [])]) "k" "UC123" =
      .error (.youTubeApiError (.str "Channel not found: UC123")) ∧
    http_get (.payload [("error", Json.obj [("message", Json.str "Channel not found: UC123")])]) =
      .error (.youTubeApiError (.str "Channel not found: UC123")) :=
  ⟨rfl, rfl⟩

/-- C6 (amended): when the `items` list of the response is missing or
empty (falsy), `get_channel_details` fails with the script's single
exception type `YouTubeApiError`, carrying the message
`Channel not found: <id>` — distinguished from transport and API-reported
failures only by its message, not by a separate type. -/
theorem C6_get_channel_details (api : String → List (String × String) → ApiResponse)
    (api_key channel_id : String) (payload : List (String × Json))
    (hresp : http_get (api "channels"
      [("part", "snippet,contentDetails,statistics"), ("id", channel_id),
       ("key", api_key)]) = .ok payload)
    (hempty : jtruthy ((dget payload "items").getD (.arr [])) = false) :
    get_channel_details api api_key channel_id =
      .error (.youTubeApiError (.str ("Channel not found: " ++ channel_id))) := by
  unfold get_channel_details
  rw [hresp]
  show (if jtruthy ((dget payload "items").getD (.arr [])) = true then _ else _) = _
  rw [hempty]
  simp

/-- C6 witness: a concrete empty result list raises the not-found
message. -/
theorem C6_get_channel_details_witness :
    get_channel_details (fun _ _ => .payload [("items", Json.arr [])]) "key" "UCX" =
      .error (.youTubeApiError (.str ("Channel not found: " ++ "UCX"))) :=
  C6_get_channel_details _ "key" "UCX" [("items", Json.arr [])] rfl rfl

/-- C4: kind `id` resolves to the identifier itself with no network call
(the result is the same for every oracle); kind `username` queries the
`channels` endpoint and resolves to `none` (absent, not a failure) on a
missing or empty result list; kind `query` queries the `search` endpoint
restricted to channels with `maxResults=1` and resolves to `none` on a
missing or empty result list, and to the first result's
`snippet.channelId` otherwise. -/
theorem C4_resolve_channel_id :
    (∀ (api api2 : String → List (String × String) → ApiResponse)
      (key value ident : String),
      extract_channel_identifier value = ("id", ident) →
      resolve_channel_id api key value = .ok (some (.str ident)) ∧
      resolve_channel_id api key value = resolve_channel_id api2 key value) ∧
    (∀ (api : String → List (String × String) → ApiResponse)
      (key value ident : String) (payload : List (String × Json)),
      extract_channel_identifier value = ("username", ident) →
      http_get (api "channels" [("part", "id"), ("forUsername", ident), ("key", key)]) =
        .ok payload →
      jtruthy ((dget payload "items").getD (.arr [])) = false →
      resolve_channel_id api key value = .ok none) ∧
    (∀ (api : String → List (String × String) → ApiResponse)
      (key value ident : String) (payload : List (String × Json)),
      extract_channel_identifier value = ("query", ident) →
      http_get (api "search"
        [("part", "snippet"), ("q", ident), ("type", "channel"),
         ("maxResults", "1"), ("key", key)]) = .ok payload →
      jtruthy ((dget payload "items").getD (.arr [])) = false →
      resolve_channel_id api key value = .ok none) ∧
    (∀ (api : String → List (String × String) → ApiResponse)
      (key value ident : String) (payload : List (String × Json))
      (x : Json) (rest : List Json) (sn cid : Json),
      extract_channel_identifier value = ("query", ident) →
      http_get (api "search"
        [("part", "snippet"), ("q", ident), ("type", "channel"),
         ("maxResults", "1"), ("key", key)]) = .ok payload →
      (dget payload "items").getD (.arr []) = .arr (x :: rest) →
      pySubscript x "snippet" = .ok sn →
      pySubscript sn "channelId" = .ok cid →
      resolve_channel_id api key value = .ok (some cid)) := by
  refine ⟨?_, ?_, ?_, ?_⟩
  · intro api api2 key value ident h
    refine ⟨?_, ?_⟩ <;> simp [resolve_channel_id, h]
  · intro api key value ident payload h hresp hempty
    simp only [resolve_channel_id, h]
    rw [if_pos trivial, hresp]
    show (if jtruthy ((dget payload "items").getD (.arr [])) = true then _ else _) = _
    rw [hempty]
    simp
  · intro api key value ident payload h hresp hempty
    simp only [resolve_channel_id, h]
    rw [if_neg (by decide : ¬("query" : String) = "id")]
    rw [if_neg (by decide : ¬("query" : String) = "username")]
    rw [hresp]
    show (if jtruthy ((dget payload "items").getD (.arr [])) = true then _ else _) = _
    rw [hempty]
    simp
  · intro api key value ident payload x rest sn cid h hresp hitems hsn hcid
    simp only [resolve_channel_id, h]
    rw [if_neg (by decide : ¬("query" : String) = "id")]
    rw [if_neg (by decide : ¬("query" : String) = "username")]
    rw [hresp]
    show (if jtruthy ((dget payload "items").getD (.arr [])) = true then
        (do
          let first ← pyIndex0 ((dget payload "items").getD (.arr []))
          let snv ← pySubscript first "snippet"
          let cidv ← pySubscript snv "channelId"
          pure (some cidv) : Except PyError (Option Json))
      else .ok none) = .ok (some cid)
    rw [hitems]
    show (if jtruthy (Json.arr (x :: rest)) = true then
        (do
          let first ← pyIndex0 (.arr (x :: rest))
          let snv ← pySubscript first "snippet"
          let cidv ← pySubscript snv "channelId"
          pure (some cidv) : Except PyError (Option Json))
      else .ok none) = .ok (some cid)
    rw [if_pos (by simp [jtruthy])]
    show (do
        let snv ← pySubscript x "snippet"
        let cidv ← pySubscript snv "channelId"
        pure (some cidv) : Except PyError (Option Json)) = .ok (some cid)
    rw [hsn]
    show (do
        let cidv ← pySubscript sn "channelId"
        pure (some cidv) : Except PyError (Option Json)) = .ok (some cid)
    rw [hcid]
    rfl

/-- C4 witness: concrete resolutions — a raw id resolves with a failing
transport oracle untouched; a stale legacy username and an unmatched
search resolve to `none`; a search hit resolves to the first result's
channel id. -/
theorem C4_resolve_channel_id_witness :
    resolve_channel_id (fun _ _ => .transportFail "net") "k" "UCabcdefghijklmnopqrstuv" =
      .ok (some (.str "UCabcdefghijklmnopqrstuv")) ∧
    resolve_channel_id (fun _ _ => .payload [("items", Json.arr [])]) "k"
      "youtube.com/user/bob" = .ok none ∧
    resolve_channel_id (fun _ _ => .payload [("items", Json.arr [])]) "k" "@nosuch" =
      .ok none ∧
    resolve_channel_id
      (fun _ _ => .payload [("items", Json.arr
        [Json.obj [("snippet", Json.obj [("channelId", Json.str "UCfound")])]])])
      "k" "@hit" = .ok (some (.str "UCfound")) :=
  ⟨(C4_resolve_channel_id.1 _ (fun _ _ => .payload []) "k" _ _ (by decide)).1,
   C4_resolve_channel_id.2.1 _ "k" _ "bob" [("items", Json.arr [])] (by decide) rfl rfl,
   C4_resolve_channel_id.2.2.1 _ "k" _ "nosuch" [("items", Json.arr [])] (by decide) rfl rfl,
   C4_resolve_channel_id.2.2.2 _ "k" _ "hit"
     [("items", Json.arr [Json.obj [("snippet", Json.obj [("channelId", Json.str "UCfound")])]])]
     (Json.obj [("snippet", Json.obj [("channelId", Json.str "UCfound")])]) []
     (Json.obj [("channelId", Json.str "UCfound")]) (Json.str "UCfound")
     (by decide) rfl rfl rfl rfl⟩

theorem exceptBind_ok {α β : Type} (a : α) (f : α → Except PyError β) :
    (Except.ok a >>= f) = f a := rfl

theorem exceptBind_err {α β : Type} (e : PyError) (f : α → Except PyError β) :
    ((Except.error e : Except PyError α) >>= f) = .error e := rfl

theorem collectIds_wf : ∀ (items : List Json) (acc : List Json),
    items.all wfItem = true →
    collectIds items acc = .ok (acc ++ items.filterMap extractId) := by
  intro items
  induction items with
  | nil =>
    intro acc h
    simp [collectIds]
  | cons item rest ih =>
    intro acc h
    rw [List.all_cons, Bool.and_eq_true] at h
    obtain ⟨hitem, hrest⟩ := h
    cases item with
    | obj kvs =>
      cases hcd : lookupJ kvs "contentDetails" with
      | none =>
        simp only [collectIds, pyGetD, hcd, Option.getD_none, exceptBind_ok, pyGetOpt]
        rw [show lookupJ [] "videoId" = none from rfl]
        simp only [exceptBind_ok]
        rw [ih acc hrest]
        simp [List.filterMap_cons, extractId, hcd]
      | some cd =>
        cases cd with
        | obj cdkvs =>
          simp only [collectIds, pyGetD, hcd, Option.getD_some, exceptBind_ok, pyGetOpt]
          cases hvid : lookupJ cdkvs "videoId" with
          | none =>
            simp only [exceptBind_ok]
            rw [ih acc hrest]
            simp [List.filterMap_cons, extractId, hcd, hvid]
          | some v =>
            simp only [exceptBind_ok]
            by_cases hv : jtruthy v = true
            · rw [if_pos hv, ih (acc ++ [v]) hrest]
              simp [List.filterMap_cons, extractId, hcd, hvid, hv]
            · rw [if_neg hv, ih acc hrest]
              simp only [Bool.not_eq_true] at hv
              simp [List.filterMap_cons, extractId, hcd, hvid, hv]
        | null => simp [wfItem, hcd] at hitem
        | bool b => simp [wfItem, hcd] at hitem
        | num n => simp [wfItem, hcd] at hitem
        | str s => simp [wfItem, hcd] at hitem
        | arr xs => simp [wfItem, hcd] at hitem
    | null => simp [wfItem] at hitem
    | bool b => simp [wfItem] at hitem
    | num n => simp [wfItem] at hitem
    | str s => simp [wfItem] at hitem
    | arr xs => simp [wfItem] at hitem

theorem pageYield_wf (p : List (String × Json)) (h : wfPage p = true) :
    pageYield p = .ok (pageIds p) := by
  unfold wfPage at h
  unfold pageYield pageIds
  revert h
  cases hitems : dget p "items" with
  | none =>
    intro h
    rfl
  | some j =>
    intro h
    cases j with
    | arr xs =>
      simp only [Option.getD_some, jIterate, exceptBind_ok]
      exact collectIds_wf xs [] h
    | null => exact Bool.noConfusion h
    | bool b => exact Bool.noConfusion h
    | num n => exact Bool.noConfusion h
    | str s => exact Bool.noConfusion h
    | obj kvs => exact Bool.noConfusion h

/-- One unfolding of the enumerator loop. -/
theorem iter_cons (p : List (String × Json)) (rest : List (List (String × Json))) :
    iter_uploads_playlist_video_ids (p :: rest) = (do
      let ids ← pageYield p
      if jtruthy (pageTok p) = true then do
        let more ← iter_uploads_playlist_video_ids rest
        pure (ids ++ more)
      else pure ids) := rfl

/-- C1: for every well-formed paginated source (each page's items are
well-formed, every page before the last carries a truthy cursor, the last
page a falsy one), the enumerator yields exactly the present video ids of
the pages, page by page in source order — skipping items with a missing
or falsy video id — and terminates at the first page without a cursor:
responses after it (`extra`) are never consumed.  The yielded count is
the sum of the pages' present-id counts. -/
theorem C1_upload_enumerator (pages extra : List (List (String × Json)))
    (h : wfPages pages = true) :
    iter_uploads_playlist_video_ids (pages ++ extra) =
      .ok ((pages.map pageIds).flatten) ∧
    ((pages.map pageIds).flatten).length =
      (pages.map fun p => (pageIds p).length).sum := by
  constructor
  · induction pages with
    | nil => cases h
    | cons p rest ih =>
      cases rest with
      | nil =>
        unfold wfPages at h
        rw [Bool.and_eq_true] at h
        obtain ⟨hp, htok⟩ := h
        rw [List.cons_append, List.nil_append, iter_cons, pageYield_wf p hp,
          exceptBind_ok]
        rw [Bool.not_eq_true'] at htok
        rw [htok, if_neg Bool.false_ne_true]
        show Except.ok (pageIds p) = Except.ok ((List.map pageIds [p]).flatten)
        simp
      | cons q rest2 =>
        unfold wfPages at h
        rw [Bool.and_eq_true, Bool.and_eq_true] at h
        obtain ⟨⟨hp, htok⟩, hrest⟩ := h
        have ihh := ih hrest
        rw [List.cons_append, iter_cons, pageYield_wf p hp, exceptBind_ok,
          if_pos htok, ihh, exceptBind_ok]
        rfl
  · rw [List.length_flatten, List.map_map]
    rfl

/-- C1 witness: a concrete two-page source (three items on page one, one
of them missing its video id, and one item on page two) followed by a
junk response that is never consumed yields exactly the three present ids
in source order. -/
theorem C1_upload_enumerator_witness :
    iter_uploads_playlist_video_ids
      ([[("items", Json.arr
           [Json.obj [("contentDetails", Json.obj [("videoId", Json.str "a")])],
            Json.obj [("contentDetails", Json.obj [])],
            Json.obj [("contentDetails", Json.obj [("videoId", Json.str "b")])]]),
         ("nextPageToken", Json.str "T")],
        [("items", Json.arr
           [Json.obj [("contentDetails", Json.obj [("videoId", Json.str "c")])]])]] ++
       [[("items", Json.arr
           [Json.obj [("contentDetails", Json.obj [("videoId", Json.str "z")])]]),
         ("nextPageToken", Json.str "MORE")]]) =
      .ok ((([[("items", Json.arr
           [Json.obj [("contentDetails", Json.obj [("videoId", Json.str "a")])],
            Json.obj [("contentDetails", Json.obj [])],
            Json.obj [("contentDetails", Json.obj [("videoId", Json.str "b")])]]),
         ("nextPageToken", Json.str "T")],
        [("items", Json.arr
           [Json.obj [("contentDetails", Json.obj [("videoId", Json.str "c")])]])]] :
        List (List (String × Json))).map pageIds).flatten) :=
  (C1_upload_enumerator _ _ (by rfl)).1

/-- Unfolding of `chunks` on a nonempty list: the first batch is the
first 50 items, the rest are the batches of the remainder. -/
theorem chunks_cons {α : Type} (l : List α) (hl : l ≠ []) :
    chunks l 50 = l.take 50 :: chunks (l.drop 50) 50 := by
  unfold chunks
  have h1 : 1 ≤ l.length := List.length_pos.mpr hl
  have hc : (l.length + 50 - 1) / 50 = ((l.drop 50).length + 50 - 1) / 50 + 1 := by
    rw [List.length_drop]
    omega
  rw [hc, List.range'_succ, List.map_cons, List.drop_zero]
  congr 1
  have hsh : (0 + 50 : Nat) = 50 + 0 := by omega
  rw [hsh, ← List.map_add_range' 50 0 _ 50, List.map_map]
  apply List.map_congr_left
  intro i _
  simp only [Function.comp_apply]
  rw [List.drop_drop]

/-- The batch list of an empty input is empty. -/
theorem chunks_nil {α : Type} : chunks ([] : List α) 50 = [] := by
  simp [chunks]

/-- The batches reassemble to the input: order is preserved across batch
boundaries and nothing is lost. -/
theorem chunks_flatten_le {α : Type} :
    ∀ (n : Nat) (l : List α), l.length ≤ n → (chunks l 50).flatten = l := by
  intro n
  induction n with
  | zero =>
    intro l h
    have : l = [] := List.eq_nil_of_length_eq_zero (Nat.le_zero.mp h)
    subst this
    rw [chunks_nil]
    rfl
  | succ n ih =>
    intro l h
    by_cases hl : l = []
    · subst hl
      rw [chunks_nil]
      rfl
    · rw [chunks_cons l hl, List.flatten_cons]
      rw [ih (l.drop 50) (by
        rw [List.length_drop]
        have : 1 ≤ l.length := List.length_pos.mpr hl
        omega)]
      exact List.take_append_drop 50 l

/-- Every batch carries at most 50 ids. -/
theorem chunks_le_50 {α : Type} (l : List α) (b : List α) (hb : b ∈ chunks l 50) :
    b.length ≤ 50 := by
  unfold chunks at hb
  obtain ⟨i, _, hbe⟩ := List.mem_map.mp hb
  rw [← hbe]
  exact List.length_take_le _ _

/-- A run over batches that all succeed concatenates their items in batch
order after the accumulator. -/
theorem fetchGo_ok (api : List String → ApiResponse) :
    ∀ (bs : List (List String)) (acc : List Json),
    (∀ b ∈ bs, (batchItems (api b)).isOk = true) →
    fetchGo api bs acc =
      .ok (acc ++ (bs.map fun b => okList (batchItems (api b))).flatten) := by
  intro bs
  induction bs with
  | nil =>
    intro acc h
    simp [fetchGo]
  | cons b rest ih =>
    intro acc h
    have hb := h b (List.mem_cons_self b rest)
    cases hx : batchItems (api b) with
    | error e =>
      rw [hx] at hb
      cases hb
    | ok xs =>
      simp only [fetchGo, hx]
      rw [ih (acc ++ xs) (fun b2 hb2 => h b2 (List.mem_cons_of_mem _ hb2))]
      simp [okList, hx, List.append_assoc]

/-- A failing batch aborts the run with that error, whatever comes
after. -/
theorem fetchGo_error (api : List String → ApiResponse) :
    ∀ (pre : List (List String)) (b : List String) (post : List (List String))
      (acc : List Json) (e : PyError),
    (∀ x ∈ pre, (batchItems (api x)).isOk = true) →
    batchItems (api b) = .error e →
    fetchGo api (pre ++ b :: post) acc = .error e := by
  intro pre
  induction pre with
  | nil =>
    intro b post acc e h hb
    simp only [List.nil_append, fetchGo, hb]
  | cons x rest ih =>
    intro b post acc e h hb
    have hx0 := h x (List.mem_cons_self x rest)
    cases hx : batchItems (api x) with
    | error e2 =>
      rw [hx] at hx0
      cases hx0
    | ok xs =>
      simp only [List.cons_append, fetchGo, hx]
      exact ih b post (acc ++ xs) e (fun y hy => h y (List.mem_cons_of_mem _ hy)) hb

/-- C2: the batch fetcher partitions the input into consecutive batches
of at most 50 ids whose concatenation is the input (order preserved); a
120-id input produces exactly the batch sizes 50, 50, 20 (exactly three
calls); when every batch call succeeds the result is the concatenation of
the items each call returns, in batch order; a failing batch aborts the
run with that failure after any prefix of successful batches. -/
theorem C2_fetch_videos_details (video_ids : List String) :
    (chunks video_ids 50).flatten = video_ids ∧
    (∀ b ∈ chunks video_ids 50, b.length ≤ 50) ∧
    (video_ids.length = 120 → (chunks video_ids 50).map List.length = [50, 50, 20]) ∧
    (∀ api : List String → ApiResponse,
      (∀ b ∈ chunks video_ids 50, (batchItems (api b)).isOk = true) →
      fetch_videos_details api video_ids =
        .ok (((chunks video_ids 50).map fun b => okList (batchItems (api b))).flatten)) ∧
    (∀ (api : List String → ApiResponse) (pre : List (List String))
      (b : List String) (post : List (List String)) (e : PyError),
      chunks video_ids 50 = pre ++ b :: post →
      (∀ x ∈ pre, (batchItems (api x)).isOk = true) →
      batchItems (api b) = .error e →
      fetch_videos_details api video_ids = .error e) := by
  refine ⟨chunks_flatten_le video_ids.length video_ids le_rfl,
    fun b hb => chunks_le_50 video_ids b hb, ?_, ?_, ?_⟩
  · intro h120
    have hne : video_ids ≠ [] := by
      intro h
      rw [h] at h120
      cases h120
    rw [chunks_cons video_ids hne]
    have hd1 : (video_ids.drop 50).length = 70 := by
      rw [List.length_drop, h120]
    have hne1 : video_ids.drop 50 ≠ [] := by
      intro h
      rw [h] at hd1
      cases hd1
    rw [chunks_cons _ hne1]
    have hd2 : ((video_ids.drop 50).drop 50).length = 20 := by
      rw [List.length_drop, hd1]
    have hne2 : (video_ids.drop 50).drop 50 ≠ [] := by
      intro h
      rw [h] at hd2
      cases hd2
    rw [chunks_cons _ hne2]
    have hd3 : (((video_ids.drop 50).drop 50).drop 50) = [] :=
      List.drop_eq_nil_of_le (by rw [hd2]; omega)
    rw [hd3]
    simp only [List.map_cons]
    rw [chunks_nil]
    simp only [List.map_nil, List.length_take, h120, hd1, hd2]
    rfl
  · intro api h
    unfold fetch_videos_details
    rw [fetchGo_ok api _ [] h]
    rfl
  · intro api pre b post e hsplit hpre hb
    unfold fetch_videos_details
    rw [hsplit]
    exact fetchGo_error api pre b post [] e hpre hb

/-- C2 witness: a concrete 120-id input issues exactly the batch shapes
50, 50, 20; an all-success oracle returns the concatenated items; an
oracle failing on the third batch aborts with that error. -/
theorem C2_fetch_videos_details_witness :
    (chunks (List.replicate 120 "v") 50).map List.length = [50, 50, 20] ∧
    fetch_videos_details (fun _ => .payload [("items", Json.arr [Json.str "x"])])
      (List.replicate 120 "v") =
      .ok (((chunks (List.replicate 120 "v") 50).map fun b =>
        okList (batchItems
          ((fun _ => ApiResponse.payload [("items", Json.arr [Json.str "x"])]) b))).flatten) ∧
    fetch_videos_details
      (fun b => if b.length = 20 then .transportFail "boom"
                else .payload [("items", Json.arr [])])
      (List.replicate 120 "v") = .error (.transportError "boom") :=
  ⟨(C2_fetch_videos_details (List.replicate 120 "v")).2.2.1 rfl,
   (C2_fetch_videos_details (List.replicate 120 "v")).2.2.2.1 _ (by decide),
   (C2_fetch_videos_details (List.replicate 120 "v")).2.2.2.2 _
     [List.replicate 50 "v", List.replicate 50 "v"] (List.replicate 20 "v") []
     (.transportError "boom") (by decide) (by decide) rfl⟩

/-- A well-formed optional sub-record read with a dict default is always
a dict. -/
theorem wfSub_obj (kvs : List (String × Json)) (k : String)
    (h : wfSub kvs k = true) :
    ∃ s, (lookupJ kvs k).getD (.obj []) = Json.obj s := by
  unfold wfSub at h
  revert h
  cases hl : lookupJ kvs k with
  | none =>
    intro _
    exact ⟨[], rfl⟩
  | some v =>
    intro h
    cases v with
    | obj s => exact ⟨s, rfl⟩
    | null => exact Bool.noConfusion h
    | bool b => exact Bool.noConfusion h
    | num n => exact Bool.noConfusion h
    | str s => exact Bool.noConfusion h
    | arr xs => exact Bool.noConfusion h

/-- Extracting the strings of an all-string list succeeds and equals the
defensive extraction. -/
theorem strExtract (xs : List Json)
    (h : xs.all (fun x => match x with | .str _ => true | _ => false) = true) :
    xs.mapM (fun x => match x with | .str s => some s | _ => none) =
      some (xs.filterMap (fun x => match x with | .str s => some s | _ => none)) := by
  induction xs with
  | nil => rfl
  | cons x rest ih =>
    rw [List.all_cons, Bool.and_eq_true] at h
    obtain ⟨hx, hrest⟩ := h
    cases x with
    | str s =>
      rw [List.mapM_cons, ih hrest, List.filterMap_cons]
      simp
    | null => exact Bool.noConfusion hx
    | bool b => exact Bool.noConfusion hx
    | num n => exact Bool.noConfusion hx
    | arr ys => exact Bool.noConfusion hx
    | obj s => exact Bool.noConfusion hx

/-- On well-formed tags `format_tags` never raises and produces the
expected cell. -/
theorem format_tags_wf (t : Option Json) (h : wfTags t = true) :
    format_tags t = .ok (tags_cell t) := by
  cases t with
  | none => rfl
  | some v =>
    cases v with
    | arr xs =>
      show (if jtruthy (Json.arr xs) = true then pyStrJoin "|" (Json.arr xs)
          else Except.ok "") =
        Except.ok (String.intercalate "|"
          (xs.filterMap fun x => match x with | Json.str s => some s | _ => none))
      by_cases hxs : xs.isEmpty
      · rw [if_neg (by simp [jtruthy, hxs])]
        rw [List.isEmpty_iff.mp hxs]
        rfl
      · rw [if_pos (by simp [jtruthy, hxs])]
        show (match xs.mapM (fun x => match x with | Json.str s => some s | _ => none) with
          | some ss => Except.ok (String.intercalate "|" ss)
          | none => Except.error PyError.typeError) =
          Except.ok (String.intercalate "|"
            (xs.filterMap fun x => match x with | Json.str s => some s | _ => none))
        rw [strExtract xs h]
    | null => exact Bool.noConfusion h
    | bool b => exact Bool.noConfusion h
    | num n => exact Bool.noConfusion h
    | str s => exact Bool.noConfusion h
    | obj s => exact Bool.noConfusion h

/-- The cell accessor agrees with the option-level lookup. -/
theorem jcell_eq (j : Json) (k : String) :
    jcell j k = (jlookup j k).getD (.str "") := by
  cases j <;> rfl

/-- One row of the video table on a well-formed video record: the writer
never raises, and the row is the expected one. -/
theorem videoRow_wf (si : String) (ci ct : Json) (video : Json)
    (h : wfVideo video = true) :
    videoRow si ci ct video = .ok (videoRowSpec si ci ct video) := by
  cases video with
  | obj kvs =>
    unfold wfVideo at h
    rw [Bool.and_eq_true, Bool.and_eq_true, Bool.and_eq_true] at h
    obtain ⟨⟨⟨hsn, hst⟩, hcd⟩, htags⟩ := h
    obtain ⟨skvs, hs⟩ := wfSub_obj kvs "snippet" hsn
    obtain ⟨stkvs, hstv⟩ := wfSub_obj kvs "statistics" hst
    obtain ⟨ckvs, hc⟩ := wfSub_obj kvs "contentDetails" hcd
    have htags2 : wfTags (lookupJ skvs "tags") = true := by
      revert htags hs
      cases hl : lookupJ kvs "snippet" with
      | none =>
        intro htags hs
        have : skvs = [] := by
          simpa using hs.symm
        rw [this]
        rfl
      | some v =>
        intro htags hs
        simp only [Option.getD_some] at hs
        rw [hs] at htags
        exact htags
    simp only [videoRow, pyGetD, hs, hstv, hc, pyGetOpt, exceptBind_ok]
    rw [format_tags_wf _ htags2]
    simp only [exceptBind_ok]
    unfold videoRowSpec
    simp only [jsub, jcell, jlookup, hs, hstv, hc]
    rfl
  | null => exact Bool.noConfusion h
  | bool b => exact Bool.noConfusion h
  | num n => exact Bool.noConfusion h
  | str s => exact Bool.noConfusion h
  | arr xs => exact Bool.noConfusion h

/-- Row construction over a list of well-formed videos never raises. -/
theorem mapM_videoRow (si : String) (ci ct : Json) :
    ∀ (videos : List Json), videos.all wfVideo = true →
    videos.mapM (videoRow si ci ct) = .ok (videos.map (videoRowSpec si ci ct)) := by
  intro videos
  induction videos with
  | nil => intro h; rfl
  | cons v rest ih =>
    intro h
    rw [List.all_cons, Bool.and_eq_true] at h
    obtain ⟨hv, hrest⟩ := h
    rw [List.mapM_cons, videoRow_wf si ci ct v hv]
    rw [show ∀ r : List Json, ((Except.ok r : Except PyError (List Json)) >>= fun y =>
        rest.mapM (videoRow si ci ct) >>= fun ys => pure (y :: ys)) =
        (rest.mapM (videoRow si ci ct) >>= fun ys => pure (r :: ys)) from fun r => rfl]
    rw [ih hrest]
    rfl

/-- The full table written for one channel over well-formed records. -/
theorem write_videos_info_wf (channel : Json) (videos : List Json) (si : String)
    (hc : wfChan channel = true) (hv : videos.all wfVideo = true) :
    write_videos_info channel videos si =
      .ok ((videoHeader.map Json.str) ::
        videos.map (videoRowSpec si (jcell channel "id")
          (jcell (jsub channel "snippet") "title"))) := by
  cases channel with
  | obj ckvs =>
    unfold wfChan at hc
    obtain ⟨skvs, hs⟩ := wfSub_obj ckvs "snippet" hc
    simp only [write_videos_info, pyGetD, hs, exceptBind_ok]
    rw [mapM_videoRow _ _ _ videos hv]
    simp only [exceptBind_ok]
    simp only [jcell, jsub, hs]
    rfl
  | null => exact Bool.noConfusion hc
  | bool b => exact Bool.noConfusion hc
  | num n => exact Bool.noConfusion hc
  | str s => exact Bool.noConfusion hc
  | arr xs => exact Bool.noConfusion hc

/-- A present all-string tags list serializes to its `|`-join. -/
theorem tags_cell_strs (ts : List String) :
    tags_cell (some (.arr (ts.map Json.str))) = String.intercalate "|" ts := by
  unfold tags_cell
  show String.intercalate "|"
      ((ts.map Json.str).filterMap fun x => match x with | Json.str s => some s | _ => none) =
    String.intercalate "|" ts
  rw [List.filterMap_map]
  congr 1
  show ts.filterMap (fun s => some s) = ts
  simp

/-- C8: over well-formed records the video table writer never raises and
writes the expected table; the tags cell (column 7) of a row is the
`|`-join of a present string-list tags field, the empty string when the
tags key is absent; and every absent optional field of a row renders as
the empty string in its column. -/
theorem C8_video_table_writer (si : String) (channel : Json) (videos : List Json)
    (hc : wfChan channel = true) (hv : videos.all wfVideo = true) :
    write_videos_info channel videos si =
      .ok ((videoHeader.map Json.str) ::
        videos.map (videoRowSpec si (jcell channel "id")
          (jcell (jsub channel "snippet") "title"))) ∧
    (∀ (ci ct video : Json) (ts : List String),
      jlookup (jsub video "snippet") "tags" = some (.arr (ts.map Json.str)) →
      (videoRowSpec si ci ct video)[7]? = some (.str (String.intercalate "|" ts))) ∧
    (∀ ci ct video : Json,
      jlookup (jsub video "snippet") "tags" = none →
      (videoRowSpec si ci ct video)[7]? = some (.str "")) ∧
    (∀ ci ct video : Json,
      jlookup video "id" = none →
      (videoRowSpec si ci ct video)[3]? = some (.str "")) ∧
    (∀ (ci ct video : Json) (k : String) (i : Nat),
      (k, i) ∈ [("title", 4), ("description", 5), ("publishedAt", 6), ("categoryId", 8)] →
      jlookup (jsub video "snippet") k = none →
      (videoRowSpec si ci ct video)[i]? = some (.str "")) ∧
    (∀ (ci ct video : Json) (k : String) (i : Nat),
      (k, i) ∈ [("duration", 9), ("definition", 10), ("caption", 11), ("projection", 13)] →
      jlookup (jsub video "contentDetails") k = none →
      (videoRowSpec si ci ct video)[i]? = some (.str "")) ∧
    (∀ ci ct video : Json,
      jlookup (jsub video "contentDetails") "licensedContent" = none →
      (videoRowSpec si ci ct video)[12]? = some (.str "")) ∧
    (∀ (ci ct video : Json) (k : String) (i : Nat),
      (k, i) ∈ [("viewCount", 14), ("likeCount", 15), ("commentCount", 16),
        ("favoriteCount", 17)] →
      jlookup (jsub video "statistics") k = none →
      (videoRowSpec si ci ct video)[i]? = some (.str "")) := by
  refine ⟨write_videos_info_wf channel videos si hc hv, ?_, ?_, ?_, ?_, ?_, ?_, ?_⟩
  · intro ci ct video ts h
    have h7 : (videoRowSpec si ci ct video)[7]? =
        some (.str (tags_cell (jlookup (jsub video "snippet") "tags"))) := rfl
    rw [h7, h, tags_cell_strs]
  · intro ci ct video h
    have h7 : (videoRowSpec si ci ct video)[7]? =
        some (.str (tags_cell (jlookup (jsub video "snippet") "tags"))) := rfl
    rw [h7, h]
    rfl
  · intro ci ct video h
    have h3 : (videoRowSpec si ci ct video)[3]? = some (jcell video "id") := rfl
    rw [h3, jcell_eq, h]
    rfl
  · intro ci ct video k i hmem h
    simp only [List.mem_cons, List.not_mem_nil, or_false, Prod.mk.injEq] at hmem
    rcases hmem with ⟨rfl, rfl⟩ | ⟨rfl, rfl⟩ | ⟨rfl, rfl⟩ | ⟨rfl, rfl⟩
    · rw [show (videoRowSpec si ci ct video)[(4 : Nat)]? =
          some (jcell (jsub video "snippet") "title") from rfl, jcell_eq, h]
      rfl
    · rw [show (videoRowSpec si ci ct video)[(5 : Nat)]? =
          some (jcell (jsub video "snippet") "description") from rfl, jcell_eq, h]
      rfl
    · rw [show (videoRowSpec si ci ct video)[(6 : Nat)]? =
          some (jcell (jsub video "snippet") "publishedAt") from rfl, jcell_eq, h]
      rfl
    · rw [show (videoRowSpec si ci ct video)[(8 : Nat)]? =
          some (jcell (jsub video "snippet") "categoryId") from rfl, jcell_eq, h]
      rfl
  · intro ci ct video k i hmem h
    simp only [List.mem_cons, List.not_mem_nil, or_false, Prod.mk.injEq] at hmem
    rcases hmem with ⟨rfl, rfl⟩ | ⟨rfl, rfl⟩ | ⟨rfl, rfl⟩ | ⟨rfl, rfl⟩
    · rw [show (videoRowSpec si ci ct video)[(9 : Nat)]? =
          some (jcell (jsub video "contentDetails") "duration") from rfl, jcell_eq, h]
      rfl
    · rw [show (videoRowSpec si ci ct video)[(10 : Nat)]? =
          some (jcell (jsub video "contentDetails") "definition") from rfl, jcell_eq, h]
      rfl
    · rw [show (videoRowSpec si ci ct video)[(11 : Nat)]? =
          some (jcell (jsub video "contentDetails") "caption") from rfl, jcell_eq, h]
      rfl
    · rw [show (videoRowSpec si ci ct video)[(13 : Nat)]? =
          some (jcell (jsub video "contentDetails") "projection") from rfl, jcell_eq, h]
      rfl
  · intro ci ct video h
    have h12 : (videoRowSpec si ci ct video)[12]? =
        some (.str (pyStr ((jlookup (jsub video "contentDetails") "licensedContent").getD
          (.str "")))) := rfl
    rw [h12, h]
    rfl
  · intro ci ct video k i hmem h
    simp only [List.mem_cons, List.not_mem_nil, or_false, Prod.mk.injEq] at hmem
    rcases hmem with ⟨rfl, rfl⟩ | ⟨rfl, rfl⟩ | ⟨rfl, rfl⟩ | ⟨rfl, rfl⟩
    · rw [show (videoRowSpec si ci ct video)[(14 : Nat)]? =
          some (jcell (jsub video "statistics") "viewCount") from rfl, jcell_eq, h]
      rfl
    · rw [show (videoRowSpec si ci ct video)[(15 : Nat)]? =
          some (jcell (jsub video "statistics") "likeCount") from rfl, jcell_eq, h]
      rfl
    · rw [show (videoRowSpec si ci ct video)[(16 : Nat)]? =
          some (jcell (jsub video "statistics") "commentCount") from rfl, jcell_eq, h]
      rfl
    · rw [show (videoRowSpec si ci ct video)[(17 : Nat)]? =
          some (jcell (jsub video "statistics") "favoriteCount") from rfl, jcell_eq, h]
      rfl

/-- C8 witness: a concrete channel and two videos — one with tags
`["a","b","c"]`, one with no fields at all — write the expected table;
the tags cells are `"a|b|c"` and the empty string, and the absent title
renders as the empty string. -/
theorem C8_video_table_writer_witness :
    write_videos_info
      (Json.obj [("id", Json.str "UC1"), ("snippet", Json.obj [("title", Json.str "T")])])
      [Json.obj [("snippet", Json.obj
          [("tags", Json.arr [Json.str "a", Json.str "b", Json.str "c"])])],
       Json.obj []] "line" =
      .ok ((videoHeader.map Json.str) ::
        ([Json.obj [("snippet", Json.obj
            [("tags", Json.arr [Json.str "a", Json.str "b", Json.str "c"])])],
          Json.obj []].map
          (videoRowSpec "line"
            (jcell (Json.obj [("id", Json.str "UC1"),
              ("snippet", Json.obj [("title", Json.str "T")])]) "id")
            (jcell (jsub (Json.obj [("id", Json.str "UC1"),
              ("snippet", Json.obj [("title", Json.str "T")])]) "snippet") "title")))) ∧
    (videoRowSpec "line" (Json.str "UC1") (Json.str "T")
      (Json.obj [("snippet", Json.obj
        [("tags", Json.arr [Json.str "a", Json.str "b", Json.str "c"])])]))[7]? =
      some (.str (String.intercalate "|" ["a", "b", "c"])) ∧
    (videoRowSpec "line" (Json.str "UC1") (Json.str "T") (Json.obj []))[7]? =
      some (.str "") ∧
    (videoRowSpec "line" (Json.str "UC1") (Json.str "T") (Json.obj []))[4]? =
      some (.str "") := by
  have W := C8_video_table_writer "line"
    (Json.obj [("id", Json.str "UC1"), ("snippet", Json.obj [("title", Json.str "T")])])
    [Json.obj [("snippet", Json.obj
        [("tags", Json.arr [Json.str "a", Json.str "b", Json.str "c"])])],
     Json.obj []] rfl rfl
  exact ⟨W.1, W.2.1 _ _ _ ["a", "b", "c"] rfl, W.2.2.1 _ _ _ rfl,
    W.2.2.2.2.1 _ _ _ "title" 4 (by decide) rfl⟩

/-- Loop body equation: a raise during resolution is caught and logged. -/
theorem processLine_resolve_error (outdir value : String) (o : LineApi)
    (e2 : PyError) (h : o.resolve = .error e2) :
    processLine outdir value o = (none, [.errorLog value e2]) := by
  unfold processLine
  rw [h]

/-- Loop body equation: an unresolved channel is reported as a skip. -/
theorem processLine_resolve_none (outdir value : String) (o : LineApi)
    (h : o.resolve = .ok none) :
    processLine outdir value o = (none, [.skipLog value]) := by
  unfold processLine
  rw [h]

/-- Loop body equation: a falsy resolved id is reported as a skip. -/
theorem processLine_resolve_falsy (outdir value : String) (o : LineApi)
    (cid : Json) (h : o.resolve = .ok (some cid)) (h2 : jtruthy cid = false) :
    processLine outdir value o = (none, [.skipLog value]) := by
  unfold processLine
  rw [h]
  show (if jtruthy cid = true then _ else ((none : Option (List (String × Json))),
    [Event.skipLog value])) = _
  rw [h2, if_neg Bool.false_ne_true]

/-- Loop body equation: a raise during the detail fetch is caught and
logged, with no row appended. -/
theorem processLine_details_error (outdir value : String) (o : LineApi)
    (cid : Json) (e2 : PyError) (h : o.resolve = .ok (some cid))
    (hcid : jtruthy cid = true) (hdet : o.details = .error e2) :
    processLine outdir value o = (none, [.errorLog value e2]) := by
  unfold processLine
  rw [h]
  show (if jtruthy cid = true then _ else ((none : Option (List (String × Json))),
    [Event.skipLog value])) = _
  rw [if_pos hcid, hdet]

/-- Loop body equation: a raise while building the channel row is caught
and logged, with no row appended. -/
theorem processLine_row_error (outdir value : String) (o : LineApi)
    (cid channel : Json) (e2 : PyError) (h : o.resolve = .ok (some cid))
    (hcid : jtruthy cid = true) (hdet : o.details = .ok channel)
    (hrow : mkChannelRow value channel = .error e2) :
    processLine outdir value o = (none, [.errorLog value e2]) := by
  unfold processLine
  rw [h]
  show (if jtruthy cid = true then _ else ((none : Option (List (String × Json))),
    [Event.skipLog value])) = _
  rw [if_pos hcid, hdet]
  show (match mkChannelRow value channel with
    | Except.error e => ((none : Option (List (String × Json))), [Event.errorLog value e])
    | Except.ok row => (some row, afterRowEvents outdir value o channel)) = _
  rw [hrow]

/-- Loop body equation: once the row is built it is appended, and the
remaining work only adds events. -/
theorem processLine_row_ok (outdir value : String) (o : LineApi)
    (cid channel : Json) (row : List (String × Json))
    (h : o.resolve = .ok (some cid)) (hcid : jtruthy cid = true)
    (hdet : o.details = .ok channel) (hrow : mkChannelRow value channel = .ok row) :
    processLine outdir value o = (some row, afterRowEvents outdir value o channel) := by
  unfold processLine
  rw [h]
  show (if jtruthy cid = true then _ else ((none : Option (List (String × Json))),
    [Event.skipLog value])) = _
  rw [if_pos hcid, hdet]
  show (match mkChannelRow value channel with
    | Except.error e => ((none : Option (List (String × Json))), [Event.errorLog value e])
    | Except.ok row => (some row, afterRowEvents outdir value o channel)) = _
  rw [hrow]

/-- Per-line video work equation: success writes the table and reports. -/
theorem afterRowEvents_ok (outdir value : String) (o : LineApi) (channel : Json)
    (p : String) (t : List (List Json))
    (h : lineVideoWork outdir value o channel = .ok (p, t)) :
    afterRowEvents outdir value o channel = [.videoCsvWrite p t, .okLog value p] := by
  unfold afterRowEvents
  rw [h]

/-- Per-line video work equation: a raise is caught and logged. -/
theorem afterRowEvents_error (outdir value : String) (o : LineApi) (channel : Json)
    (e2 : PyError) (h : lineVideoWork outdir value o channel = .error e2) :
    afterRowEvents outdir value o channel = [.errorLog value e2] := by
  unfold afterRowEvents
  rw [h]

/-- The driver loop appends each line's events in order and collects one
channel row per line whose resolution, detail fetch and row construction
succeeded, after any rows already accumulated. -/
theorem driverLoop_eq (outdir : String) :
    ∀ (items : List (String × LineApi)) (rows : List (List (String × Json))),
    driverLoop outdir items rows =
      (rows ++ items.filterMap (fun it => (processLine outdir it.1 it.2).1),
       (items.map (fun it => (processLine outdir it.1 it.2).2)).flatten) := by
  intro items
  induction items with
  | nil =>
    intro rows
    simp [driverLoop]
  | cons it rest ih =>
    intro rows
    simp only [driverLoop, ih, List.map_cons, List.flatten_cons, List.filterMap_cons]
    cases hr : (processLine outdir it.1 it.2).1 with
    | none => simp [hr]
    | some row => simp [hr]

/-- No per-line event is the channel summary write. -/
theorem processLine_events_not_channel (outdir value : String) (o : LineApi) :
    ∀ e ∈ (processLine outdir value o).2, isChannelWrite e = false := by
  intro e he
  rcases hres : o.resolve with e2 | copt
  · rw [processLine_resolve_error outdir value o e2 hres] at he
    rw [List.mem_singleton.mp he]
    rfl
  · rcases copt with _ | cid
    · rw [processLine_resolve_none outdir value o hres] at he
      rw [List.mem_singleton.mp he]
      rfl
    · by_cases hcid : jtruthy cid = true
      · rcases hdet : o.details with e2 | channel
        · rw [processLine_details_error outdir value o cid e2 hres hcid hdet] at he
          rw [List.mem_singleton.mp he]
          rfl
        · rcases hrow : mkChannelRow value channel with e2 | row
          · rw [processLine_row_error outdir value o cid channel e2 hres hcid hdet hrow] at he
            rw [List.mem_singleton.mp he]
            rfl
          · rw [processLine_row_ok outdir value o cid channel row hres hcid hdet hrow] at he
            have he2 : e ∈ afterRowEvents outdir value o channel := he
            rcases hlw : lineVideoWork outdir value o channel with e2 | pt
            · rw [afterRowEvents_error outdir value o channel e2 hlw] at he2
              rw [List.mem_singleton.mp he2]
              rfl
            · obtain ⟨p, t⟩ := pt
              rw [afterRowEvents_ok outdir value o channel p t hlw] at he2
              rcases List.mem_cons.mp he2 with h1 | h1
              · rw [h1]
                rfl
              · rw [List.mem_singleton.mp h1]
                rfl
      · rw [Bool.not_eq_true] at hcid
        rw [processLine_resolve_falsy outdir value o cid hres hcid] at he
        rw [List.mem_singleton.mp he]
        rfl

/-- C5: the trace of a run is exactly the per-line event lists in input
order followed by one final write of the accumulated channel table, which
holds one row per line whose channel was successfully resolved and
detail-fetched; the channel table write occurs exactly once and last; and
every event a line produces appears in the trace whatever the other lines
did — in particular a failure on one line never suppresses a later line's
video table write. -/
theorem C5_pipeline_driver (outdir : String) (items : List (String × LineApi)) :
    main_trace outdir items =
      (items.map fun it => (processLine outdir it.1 it.2).2).flatten ++
        [Event.channelCsvWrite
          (items.filterMap fun it => (processLine outdir it.1 it.2).1)] ∧
    (main_trace outdir items).countP isChannelWrite = 1 ∧
    (main_trace outdir items).getLast? =
      some (Event.channelCsvWrite
        (items.filterMap fun it => (processLine outdir it.1 it.2).1)) ∧
    (∀ it ∈ items, ∀ e ∈ (processLine outdir it.1 it.2).2,
      e ∈ main_trace outdir items) := by
  have htr : main_trace outdir items =
      (items.map fun it => (processLine outdir it.1 it.2).2).flatten ++
        [Event.channelCsvWrite
          (items.filterMap fun it => (processLine outdir it.1 it.2).1)] := by
    unfold main_trace
    rw [driverLoop_eq]
    simp
  refine ⟨htr, ?_, ?_, ?_⟩
  · rw [htr, List.countP_append]
    have h0 : ((items.map fun it => (processLine outdir it.1 it.2).2).flatten).countP
        isChannelWrite = 0 := by
      rw [List.countP_eq_zero]
      intro e he
      rw [List.mem_flatten] at he
      obtain ⟨l, hl, hel⟩ := he
      rw [List.mem_map] at hl
      obtain ⟨it, _, hit⟩ := hl
      rw [← hit] at hel
      simpa using processLine_events_not_channel outdir it.1 it.2 e hel
    rw [h0]
    rfl
  · rw [htr]
    exact List.getLast?_concat _
  · intro it hit e he
    rw [htr]
    apply List.mem_append_left
    rw [List.mem_flatten]
    exact ⟨(processLine outdir it.1 it.2).2, List.mem_map.mpr ⟨it, hit, rfl⟩, he⟩

/-- C5 witness: a failing first line and a well-formed second line — the
trace still contains the second line's video table write, and the channel
table is written exactly once. -/
theorem C5_pipeline_driver_witness :
    (main_trace "out"
      [("bad", ⟨Except.error (.transportError "net"), Except.error PyError.typeError,
         Except.ok [], Except.ok []⟩),
       ("good", ⟨Except.ok (some (Json.str "UCgood")),
         Except.ok (Json.obj [("snippet", Json.obj [("title", Json.str "T")])]),
         Except.ok [], Except.ok []⟩)]).countP isChannelWrite = 1 ∧
    Event.videoCsvWrite "out/T_videosinfo.csv" [videoHeader.map Json.str] ∈
      main_trace "out"
        [("bad", ⟨Except.error (.transportError "net"), Except.error PyError.typeError,
           Except.ok [], Except.ok []⟩),
         ("good", ⟨Except.ok (some (Json.str "UCgood")),
           Except.ok (Json.obj [("snippet", Json.obj [("title", Json.str "T")])]),
           Except.ok [], Except.ok []⟩)] := by
  refine ⟨(C5_pipeline_driver "out" _).2.1, ?_⟩
  refine (C5_pipeline_driver "out" _).2.2.2
    ("good", ⟨Except.ok (some (Json.str "UCgood")),
      Except.ok (Json.obj [("snippet", Json.obj [("title", Json.str "T")])]),
      Except.ok [], Except.ok []⟩)
    (List.mem_cons_of_mem _ (List.mem_cons_self _ _))
    (Event.videoCsvWrite "out/T_videosinfo.csv" [videoHeader.map Json.str]) ?_
  have hpl : (processLine "out" "good"
      ⟨Except.ok (some (Json.str "UCgood")),
        Except.ok (Json.obj [("snippet", Json.obj [("title", Json.str "T")])]),
        Except.ok [], Except.ok []⟩).2 =
      [Event.videoCsvWrite "out/T_videosinfo.csv" [videoHeader.map Json.str],
       Event.okLog "good" "out/T_videosinfo.csv"] := rfl
  rw [hpl]
  exact List.mem_cons_self _ _

/-- Writing a path makes its content the written table. -/
theorem fsLookup_fsWrite_self :
    ∀ (fs : List (String × List (List Json))) (p : String) (t : List (List Json)),
    fsLookup (fsWrite fs p t) p = some t := by
  intro fs
  induction fs with
  | nil =>
    intro p t
    simp [fsWrite, fsLookup]
  | cons qu rest ih =>
    intro p t
    obtain ⟨q, u⟩ := qu
    by_cases hq : q = p
    · simp [fsWrite, fsLookup, hq]
    · simp only [fsWrite, fsLookup, if_neg hq]
      exact ih p t

/-- Writing one path leaves every other path unchanged. -/
theorem fsLookup_fsWrite_other :
    ∀ (fs : List (String × List (List Json))) (p q : String) (t : List (List Json)),
    q ≠ p → fsLookup (fsWrite fs q t) p = fsLookup fs p := by
  intro fs
  induction fs with
  | nil =>
    intro p q t hq
    simp [fsWrite, fsLookup, hq]
  | cons ru rest ih =>
    intro p q t hq
    obtain ⟨r, u⟩ := ru
    by_cases hr : r = q
    · subst hr
      simp [fsWrite, fsLookup, hq]
    · simp only [fsWrite, if_neg hr, fsLookup]
      by_cases hrp : r = p
      · simp [hrp]
      · simp only [if_neg hrp]
        exact ih p q t hq

/-- The last write to a path through a trace that starts by writing it. -/
theorem lastVideoWrite_cons_self (q : String) (t : List (List Json))
    (rest : List Event) :
    lastVideoWrite (.videoCsvWrite q t :: rest) q =
      some ((lastVideoWrite rest q).getD t) := by
  unfold lastVideoWrite
  rw [List.filterMap_cons]
  dsimp only
  rw [if_pos rfl]
  cases hfm : List.filterMap (fun e =>
      match e with
      | Event.videoCsvWrite q2 t2 => if q2 = q then some t2 else none
      | _ => none) rest with
  | nil => rfl
  | cons x xs =>
    cases hx : (x :: xs).getLast? with
    | none => simp at hx
    | some u =>
      rw [List.getLast?_cons_cons, hx]
      rfl

/-- A write to a different path does not affect the last write to this
one. -/
theorem lastVideoWrite_cons_other (q p : String) (t : List (List Json))
    (rest : List Event) (h : q ≠ p) :
    lastVideoWrite (.videoCsvWrite q t :: rest) p = lastVideoWrite rest p := by
  unfold lastVideoWrite
  rw [List.filterMap_cons]
  dsimp only
  rw [if_neg h]

/-- Replaying a trace: the file at a path is the last table written to
it, or the prior content when the trace never writes it. Writes are in
truncating mode, so a later write replaces an earlier one. -/
theorem applyEvents_lastWrite :
    ∀ (events : List Event) (fs : List (String × List (List Json))) (p : String),
    fsLookup (applyEvents events fs) p =
      (match lastVideoWrite events p with
       | some t => some t
       | none => fsLookup fs p) := by
  intro events
  induction events with
  | nil =>
    intro fs p
    rfl
  | cons e rest ih =>
    intro fs p
    cases e with
    | videoCsvWrite q t =>
      show fsLookup (applyEvents rest (fsWrite fs q t)) p = _
      rw [ih]
      by_cases hq : q = p
      · subst hq
        rw [lastVideoWrite_cons_self]
        cases hlw : lastVideoWrite rest q with
        | none =>
          show fsLookup (fsWrite fs q t) q = some ((none : Option (List (List Json))).getD t)
          exact fsLookup_fsWrite_self fs q t
        | some u => rfl
      · rw [lastVideoWrite_cons_other q p t rest hq,
          fsLookup_fsWrite_other fs p q t hq]
    | channelCsvWrite rows =>
      show fsLookup (applyEvents rest fs) p = _
      rw [ih]
      rfl
    | errorLog v e2 =>
      show fsLookup (applyEvents rest fs) p = _
      rw [ih]
      rfl
    | skipLog v =>
      show fsLookup (applyEvents rest fs) p = _
      rw [ih]
      rfl
    | okLog v pth =>
      show fsLookup (applyEvents rest fs) p = _
      rw [ih]
      rfl

/-- C10: the per-channel video table path is a function of the output
directory and the channel record's sanitized title only — two channels
with the same sanitized title map to the same path, whatever input lines
produced them — and replaying a run's trace against the file system
leaves, at every path, exactly the last table written to it (writes
truncate, so a later line's write replaces an earlier line's file). -/
theorem C10_video_csv_path (outdir : String) :
    (∀ c1 c2 : Json, channelFilename c1 = channelFilename c2 →
      videos_info_path outdir c1 = videos_info_path outdir c2) ∧
    (∀ (items : List (String × LineApi)) (p : String),
      fsLookup (applyEvents (main_trace outdir items) []) p =
        lastVideoWrite (main_trace outdir items) p) := by
  constructor
  · intro c1 c2 h
    unfold videos_info_path
    rw [h]
  · intro items p
    rw [applyEvents_lastWrite]
    cases lastVideoWrite (main_trace outdir items) p <;> rfl

/-- C10 witness: two different raw titles with the same sanitized form
yield the same path, and on a run with two lines resolving to the same
title the file at that path is the last write of the trace. -/
theorem C10_video_csv_path_witness :
    videos_info_path "out"
        (Json.obj [("snippet", Json.obj [("title", Json.str "My*Chan")])]) =
      videos_info_path "out"
        (Json.obj [("snippet", Json.obj [("title", Json.str "My?Chan")])]) ∧
    fsLookup
      (applyEvents (main_trace "out"
        [("one", ⟨Except.ok (some (Json.str "UC1")),
           Except.ok (Json.obj [("snippet", Json.obj [("title", Json.str "T")])]),
           Except.ok [], Except.ok []⟩),
         ("two", ⟨Except.ok (some (Json.str "UC1")),
           Except.ok (Json.obj [("snippet", Json.obj [("title", Json.str "T")])]),
           Except.ok [], Except.ok []⟩)]) []) "out/T_videosinfo.csv" =
      lastVideoWrite (main_trace "out"
        [("one", ⟨Except.ok (some (Json.str "UC1")),
           Except.ok (Json.obj [("snippet", Json.obj [("title", Json.str "T")])]),
           Except.ok [], Except.ok []⟩),
         ("two", ⟨Except.ok (some (Json.str "UC1")),
           Except.ok (Json.obj [("snippet", Json.obj [("title", Json.str "T")])]),
           Except.ok [], Except.ok []⟩)]) "out/T_videosinfo.csv" :=
  ⟨(C10_video_csv_path "out").1 _ _ rfl, (C10_video_csv_path "out").2 _ _⟩
